import Mathlib

/-!
Verification of the SJA1110 control-tool specification against a shallow
embedding of the repository sources.

Bytes are modelled as `List Nat` (each element a value 0..255 produced by
`struct.pack`-style encoders).  Python functions that can raise are modelled
in the `Except` monad; `struct.pack` field range checks become explicit
checked encoders.  State-mutating methods take and return explicit state
records; an exception carries the state at raise time, mirroring the fact
that a Python exception leaves the object with exactly the mutations
performed before the raise.
-/

/-- Little-endian 2-byte encoding (value assumed in range). -/
def le16 (v : Nat) : List Nat := [v % 256, v / 256 % 256]

/-- Little-endian 4-byte encoding, as produced by `struct.pack` with a
little-endian unsigned-int format (value assumed in range). -/
def le32 (v : Nat) : List Nat :=
  [v % 256, v / 256 % 256, v / 65536 % 256, v / 16777216 % 256]

/-- Big-endian 2-byte encoding. -/
def be16 (v : Nat) : List Nat := [v / 256 % 256, v % 256]

/-- Big-endian 4-byte encoding, as produced by `struct.pack` with a
big-endian unsigned-int format (value assumed in range). -/
def be32 (v : Nat) : List Nat :=
  [v / 16777216 % 256, v / 65536 % 256, v / 256 % 256, v % 256]

/-- `int.from_bytes(bs, "little")`. -/
def leDecode (bs : List Nat) : Nat :=
  bs.foldr (fun b acc => b + 256 * acc) 0

/-- `struct.pack` with an unsigned-byte field: range-checked single byte. -/
def packB (v : Nat) : Except String (List Nat) :=
  if v < 256 then .ok [v] else .error "ubyte format requires 0 <= number <= 255"

/-- `struct.pack` with a little-endian unsigned-short field. -/
def packLEH (v : Nat) : Except String (List Nat) :=
  if v < 65536 then .ok (le16 v) else .error "ushort format requires 0 <= number <= 65535"

/-- `struct.pack` with a big-endian unsigned-short field. -/
def packBEH (v : Nat) : Except String (List Nat) :=
  if v < 65536 then .ok (be16 v) else .error "ushort format requires 0 <= number <= 65535"

/-- `struct.pack` with a little-endian unsigned-int field. -/
def packLEI (v : Nat) : Except String (List Nat) :=
  if v < 4294967296 then .ok (le32 v) else .error "uint format requires 0 <= number <= 4294967295"

/-- One bit step of the reflected CRC-32 (polynomial 0xEDB88320), as used by
`zlib.crc32`. -/
def crcStep (s : Nat) : Nat :=
  if s % 2 = 1 then (s / 2) ^^^ 0xEDB88320 else s / 2

/-- Process one input byte of the reflected CRC-32: xor the byte into the
state, then run eight bit steps. -/
def crcUpdateByte (s b : Nat) : Nat :=
  crcStep (crcStep (crcStep (crcStep (crcStep (crcStep (crcStep (crcStep (s ^^^ b))))))))

/-- Fold the CRC state over a byte string. -/
def crcUpdate (s : Nat) (l : List Nat) : Nat :=
  l.foldl crcUpdateByte s

/-- `zlib.crc32(data) & 0xFFFFFFFF`: initial state `0xFFFFFFFF`, final xor
with `0xFFFFFFFF`, result masked to 32 bits (the mask mirrors the
`& 0xFFFFFFFF` the sources apply to the return value). -/
def crc32 (l : List Nat) : Nat :=
  (crcUpdate 0xFFFFFFFF l ^^^ 0xFFFFFFFF) &&& 0xFFFFFFFF

/-- Python `bytearray` slice assignment `t[o:o+len(e)] = e` (with the slice
entirely inside the buffer). -/
def writeAt (t : List Nat) (o : Nat) (e : List Nat) : List Nat :=
  t.take o ++ e ++ t.drop (o + e.length)

/-- The NXP `IMAGE_VALID_MARKER` from `sja1110_init.h`, used by all the
builder, verifier and upload modules. -/
def IMAGE_VALID_MARKER : List Nat := [0x6A, 0xA6, 0x6A, 0xA6, 0x6A, 0xA6, 0x6A, 0xA6]

/-- SJA1110 device id constant `0xb700030e`. -/
def SJA1110_DEVICE_ID : Nat := 0xb700030e

/-! ## `src/sja1110_correct_firmware.py` — `CorrectSJA1110Firmware` -/

/-- One FRER stream as stored by `CorrectSJA1110Firmware.add_frer_stream`. -/
structure CorrectStream where
  stream_id : Nat
  name : String
  src_port : Nat
  dst_ports : List Nat
  vlan_id : Nat
  priority : Nat

/-- The destination-port byte loop of `build_uc_firmware`
(`for dst_port in stream['dst_ports']: stream_data += struct.pack('<B', dst_port)`). -/
def packPortBytes : List Nat → Except String (List Nat)
  | [] => .ok []
  | d :: t => do
    let b ← packB d
    let r ← packPortBytes t
    .ok (b ++ r)

/-- One 16-byte (or longer) stream configuration entry of `build_uc_firmware`:
id, vlan, priority, source port, destination count, destination ports,
zero-padded up to 16 bytes. -/
def ucStreamEntry (s : CorrectStream) : Except String (List Nat) := do
  let f1 ← packLEH s.stream_id
  let f2 ← packLEH s.vlan_id
  let f3 ← packB s.priority
  let f4 ← packB s.src_port
  let f5 ← packB s.dst_ports.length
  let ds ← packPortBytes s.dst_ports
  let raw := f1 ++ f2 ++ f3 ++ f4 ++ f5 ++ ds
  .ok (raw ++ List.replicate (16 - raw.length) 0)

/-- The stream loop of `build_uc_firmware`, concatenating the entries. -/
def ucEntries : List CorrectStream → Except String (List Nat)
  | [] => .ok []
  | s :: t => do
    let e ← ucStreamEntry s
    let r ← ucEntries t
    .ok (e ++ r)

/-- The 64-byte UC firmware header: `HEADER_EXEC` at offset 8, version word at
12, load address at 16, entry point at 20, zeros elsewhere. -/
def ucHeader : List Nat :=
  writeAt (writeAt (writeAt (writeAt (List.replicate 64 0) 8 [0xDD, 0x11])
    12 (le32 0x00010001)) 16 (le32 0x00008000)) 20 (le32 0x00000000)

/-- `CorrectSJA1110Firmware.build_uc_firmware`: marker, 64-byte header,
stream count and FRER-enable words, stream entries, `0xFF` padding up to
`320*1024 - 4`, little-endian CRC-32 trailer. -/
def build_uc_firmware (streams : List CorrectStream) : Except String (List Nat) := do
  let cnt ← packLEI streams.length
  let entries ← ucEntries streams
  let body := IMAGE_VALID_MARKER ++ ucHeader ++ (cnt ++ le32 0x00000001) ++ entries
  let padded := body ++ List.replicate (327676 - body.length) 0xFF
  .ok (padded ++ le32 (crc32 padded))

/-- The 56-byte switch configuration header of `build_switch_config`:
device id at offset 0, configuration flags at offset 4, zeros elsewhere. -/
def switchConfigHeader : List Nat :=
  writeAt (writeAt (List.replicate 56 0) 0 (le32 SJA1110_DEVICE_ID)) 4 (le32 0x80000000)

/-- The 256-byte general-parameters table of `build_switch_config`. -/
def switchGeneralParams : List Nat :=
  writeAt (writeAt (writeAt (writeAt (List.replicate 256 0) 0 (le32 0x00000000))
    4 (le32 0x000007FF)) 8 (le32 0x00000001)) 12 (le32 0x00000001)

/-- Port speed word of `build_switch_config`: port 0 is the CPU port (1G),
ports 1..4 are RJ45 (1G from port 2 up, else 100M), ports 5..10 are T1
(100M). -/
def switchPortSpeed (port : Nat) : Nat :=
  if port = 0 then 0x03
  else if port ≤ 4 then (if 2 ≤ port then 0x03 else 0x02)
  else 0x02

/-- One 128-byte per-port configuration block of `build_switch_config`. -/
def switchPortConfig (port : Nat) : List Nat :=
  writeAt (writeAt (writeAt (writeAt (List.replicate 128 0) 0 (le32 0x00000001))
    4 (le32 (switchPortSpeed port))) 8 (le32 0x00000001)) 12 (le32 0x00000001)

/-- One 16-byte CB (802.1CB) table entry of `build_switch_config`:
stream handle, input port, output port, R-TAG type `0xF1C1`, path id,
`CB_EN`, 8 reserved bytes. -/
def switchCbEntry (s : CorrectStream) (i dst : Nat) : Except String (List Nat) := do
  let a ← packLEH s.stream_id
  let b ← packB s.src_port
  let c ← packB dst
  let d ← packLEH 0xF1C1
  let e ← packB (i + 1)
  let f ← packB 0x01
  .ok (a ++ b ++ c ++ d ++ e ++ f ++ List.replicate 8 0)

/-- Inner loop of the CB table fill: one entry per destination port, written
at the running offset when it still fits within the 2048-byte table. -/
def switchCbInner (s : CorrectStream) : Nat → List Nat → List Nat → Nat →
    Except String (List Nat × Nat)
  | _, [], tb, off => .ok (tb, off)
  | i, d :: t, tb, off =>
    if off + 16 ≤ tb.length then do
      let e ← switchCbEntry s i d
      switchCbInner s (i + 1) t (writeAt tb off e) (off + 16)
    else
      switchCbInner s (i + 1) t tb off

/-- Outer loop of the CB table fill over all streams. -/
def switchCbLoop : List CorrectStream → List Nat → Nat → Except String (List Nat × Nat)
  | [], tb, off => .ok (tb, off)
  | s :: rest, tb, off => do
    let r ← switchCbInner s 0 s.dst_ports tb off
    switchCbLoop rest r.1 r.2

/-- One 32-byte DPI table entry of `build_switch_config`. -/
def switchDpiEntry (s : CorrectStream) : Except String (List Nat) := do
  let a ← packLEH s.stream_id
  let b ← packLEH s.vlan_id
  let c ← packB s.priority
  let d ← packB s.src_port
  let e ← packB 0x01
  let f ← packB 0x01
  .ok (a ++ b ++ c ++ d ++ e ++ f ++ List.replicate 24 0)

/-- DPI table fill of `build_switch_config`: the i-th stream entry is written
at offset `i*32` when it fits within the 1024-byte table. -/
def switchDpiLoop : Nat → List CorrectStream → List Nat → Except String (List Nat)
  | _, [], tb => .ok tb
  | i, s :: rest, tb =>
    if i * 32 + 32 ≤ tb.length then do
      let e ← switchDpiEntry s
      switchDpiLoop (i + 1) rest (writeAt tb (i * 32) e)
    else
      switchDpiLoop (i + 1) rest tb

/-- `CorrectSJA1110Firmware.build_switch_config`: marker, 56-byte header,
zero padding up to the config start address `0x20000`, general parameters,
11 per-port blocks, 2048-byte CB table, 1024-byte DPI table, `0xFF` padding
up to `640*1024 - 4`, little-endian CRC-32 trailer. -/
def build_switch_config (streams : List CorrectStream) : Except String (List Nat) := do
  let cb ← switchCbLoop streams (List.replicate 2048 0) 0
  let dpi ← switchDpiLoop 0 streams (List.replicate 1024 0)
  let start := IMAGE_VALID_MARKER ++ switchConfigHeader
  let body := start ++ List.replicate (0x20000 - start.length) 0 ++ switchGeneralParams
      ++ ((List.range 11).map switchPortConfig).flatten ++ cb.1 ++ dpi
  let padded := body ++ List.replicate (655356 - body.length) 0xFF
  .ok (padded ++ le32 (crc32 padded))

/-! ## `src/sja1110_dual_firmware.py` — `SJA1110FirmwareBuilder` -/

/-- One replication point of `add_frer_replication_stream`: derived per
destination port with `rp_id = stream_id*10 + i`, R-TAG type `0xF1C1` and
path id `i+1`. -/
structure DualReplicationPoint where
  rp_id : Nat
  input_port : Nat
  output_port : Nat
  rtag_type : Nat
  path_id : Nat

/-- One FRER replication stream as stored by `add_frer_replication_stream`. -/
structure DualStream where
  stream_id : Nat
  name : String
  src_port : Nat
  dst_ports : List Nat
  vlan_id : Nat
  priority : Nat

/-- The replication points derived for a dual-builder stream. -/
def dualReplicationPoints (s : DualStream) : List DualReplicationPoint :=
  (List.range s.dst_ports.length).zip s.dst_ports |>.map fun p =>
    ⟨s.stream_id * 10 + p.1, s.src_port, p.2, 0xF1C1, p.1 + 1⟩

/-- `python sum(...)` over a byte string (left fold of addition from 0). -/
def sumBytes (l : List Nat) : Nat := l.foldl (· + ·) 0

/-- The 64-byte switch configuration header of `build_switch_firmware`:
big-endian magic `0x6AA66AA6`, config version, device-config size, L2
lookup-table size, 48 reserved zero bytes. -/
def dualHeader : List Nat :=
  be32 0x6AA66AA6 ++ be32 0x00000001 ++ be32 0x00010000 ++ be32 0x00020000
    ++ List.replicate 48 0

/-- The 20-byte general-parameters block written at device-config offset 0. -/
def dualGeneralParams : List Nat :=
  be32 0x00000001 ++ be32 0x000007FF ++ be32 0x00000001 ++ be32 0x00000001
    ++ be32 0x00000001

/-- Whether the `port_config` dict of `SJA1110FirmwareBuilder.__init__` lists
this port with a `'1000M'` speed string (ports 0 and 2..4; ports 1 and 5..10
are `'100M'`). -/
def dualPortIs1G (p : Nat) : Bool := p == 0 || (2 ≤ p && p ≤ 4)

/-- One 16-byte per-port MAC configuration block of `build_switch_firmware`. -/
def dualMacConfig (p : Nat) : List Nat :=
  be32 0x00000001 ++ be32 (if dualPortIs1G p then 0x00000003 else 0x00000002)
    ++ be32 0x00000001 ++ be32 0x00000001

/-- The per-port write loop of `build_switch_firmware`: each port block is
written at `0x1000 + port_id * 0x100` into the 64 KiB device-config buffer. -/
def dualPortsLoop : List Nat → List Nat → List Nat
  | [], dc => dc
  | p :: rest, dc => dualPortsLoop rest (writeAt dc (0x1000 + p * 0x100) (dualMacConfig p))

/-- The 64 KiB device configuration block of `build_switch_firmware`:
general parameters at offset 0, 11 per-port MAC blocks. -/
def dualDeviceConfig : List Nat :=
  dualPortsLoop [0, 1, 2, 3, 4, 5, 6, 7, 8, 9, 10]
    (writeAt (List.replicate 65536 0) 0 dualGeneralParams)

/-- One 16-byte CB entry of `build_switch_firmware` (big-endian fields). -/
def dualCbEntry (sid : Nat) (rp : DualReplicationPoint) : Except String (List Nat) := do
  let a ← packBEH sid
  let b ← packB rp.input_port
  let c ← packB rp.output_port
  let d ← packBEH rp.rtag_type
  let e ← packB rp.path_id
  let f ← packB 0x01
  .ok (a ++ b ++ c ++ d ++ e ++ f ++ List.replicate 8 0)

/-- Replication-point loop of the CB table fill: entry written at
`0x8000 + rp_id * 16` when it fits inside the L2 lookup buffer. -/
def dualCbInner (sid : Nat) : List DualReplicationPoint → List Nat → Except String (List Nat)
  | [], l2 => .ok l2
  | rp :: rest, l2 => do
    let e ← dualCbEntry sid rp
    let off := 0x8000 + rp.rp_id * 16
    let l2a := if off + 16 ≤ l2.length then writeAt l2 off e else l2
    dualCbInner sid rest l2a

/-- CB table fill of `build_switch_firmware` over all streams. -/
def dualCbLoop : List DualStream → List Nat → Except String (List Nat)
  | [], l2 => .ok l2
  | s :: rest, l2 => do
    let l2a ← dualCbInner s.stream_id (dualReplicationPoints s) l2
    dualCbLoop rest l2a

/-- One 32-byte DPI entry of `build_switch_firmware` (big-endian fields). -/
def dualDpiEntry (s : DualStream) : Except String (List Nat) := do
  let a ← packBEH s.stream_id
  let b ← packBEH s.vlan_id
  let c ← packB s.priority
  let d ← packB s.src_port
  let e ← packB 0x01
  let f ← packB 0x01
  .ok (a ++ b ++ c ++ d ++ e ++ f ++ List.replicate 24 0)

/-- DPI table fill of `build_switch_firmware`: the i-th stream entry is
written at `0xC000 + i * 32` when it fits inside the L2 lookup buffer. -/
def dualDpiLoop : Nat → List DualStream → List Nat → Except String (List Nat)
  | _, [], l2 => .ok l2
  | i, s :: rest, l2 => do
    let e ← dualDpiEntry s
    let off := 0x8000 + 0x4000 + i * 32
    let l2a := if off + 32 ≤ l2.length then writeAt l2 off e else l2
    dualDpiLoop (i + 1) rest l2a

/-- The 128 KiB L2 lookup block of `build_switch_firmware`: CB entries at
`0x8000`, DPI entries at `0xC000`, zeros elsewhere. -/
def dualL2Lookup (streams : List DualStream) : Except String (List Nat) := do
  let l2a ← dualCbLoop streams (List.replicate 131072 0)
  dualDpiLoop 0 streams l2a

/-- `SJA1110FirmwareBuilder.build_switch_firmware`: header, 64 KiB device
config, 128 KiB L2 lookup, `0xFF` padding up to `640*1024` bytes, then the
last four bytes are overwritten with `struct.pack('>I', sum(config) &
0xFFFFFFFF)` — a big-endian additive checksum computed over the whole padded
image (including the four pad bytes being replaced). -/
def build_switch_firmware (streams : List DualStream) : Except String (List Nat) := do
  let l2 ← dualL2Lookup streams
  let config := dualHeader ++ dualDeviceConfig ++ l2
  let padded := config ++ List.replicate (655360 - config.length) 0xFF
  let checksum := sumBytes padded &&& 0xFFFFFFFF
  .ok (padded.take (padded.length - 4) ++ be32 checksum)

/-! ## `src/sja1110_frer.py` — `SJA1110FRER` -/

/-- `StreamIdentification` dataclass (the MAC strings are carried opaquely;
only presence matters to the modelled operations). -/
structure StreamIdentification where
  stream_handle : Nat
  null_stream_id : Bool := false
  source_mac : Option String := none
  dest_mac : Option String := none
  vlan_id : Option Nat := none
  priority : Option Nat := none

/-- `SequenceGenerationEntry` dataclass. -/
structure SequenceGenerationEntry where
  stream_handle : Nat
  port_mask : Nat
  sequence_number : Nat := 0
  enable : Bool := true
deriving DecidableEq

/-- `SequenceGenerationEntry.to_bytes`: `struct.pack('>HBBH', handle,
port_mask, flags, seq)` — note the port mask is packed as a single
unsigned byte, so `struct.pack` raises when it exceeds 255. -/
def SequenceGenerationEntry.to_bytes (e : SequenceGenerationEntry) :
    Except String (List Nat) := do
  let a ← packBEH e.stream_handle
  let b ← packB e.port_mask
  let c ← packB (if e.enable then 0x80 else 0x00)
  let d ← packBEH e.sequence_number
  .ok (a ++ b ++ c ++ d)

/-- `SequenceRecoveryEntry` dataclass (algorithm carried as its integer
value). -/
structure SequenceRecoveryEntry where
  stream_handle : Nat
  port : Int
  sequence_number : Nat := 0
  history_length : Nat := 8
  reset_timeout : Nat := 100
  algorithm : Nat := 0
  enable : Bool := true

/-- Association-list update mirroring Python dict assignment
`d[k] = v` (replaces an existing binding, otherwise appends). -/
def dictInsert {α : Type} (l : List (Nat × α)) (k : Nat) (v : α) : List (Nat × α) :=
  match l with
  | [] => [(k, v)]
  | (k2, v2) :: rest =>
    if k2 = k then (k, v) :: rest else (k2, v2) :: dictInsert rest k v

/-- Association-list lookup mirroring Python dict membership/access. -/
def dictFind {α : Type} (l : List (Nat × α)) (k : Nat) : Option α :=
  match l with
  | [] => none
  | (k2, v) :: rest => if k2 = k then some v else dictFind rest k

/-- The mutable state of a `SJA1110FRER` instance. -/
structure FRERState where
  stream_identifications : List (Nat × StreamIdentification) := []
  sequence_generation : List (Nat × SequenceGenerationEntry) := []
  sequence_recovery : List (Nat × SequenceRecoveryEntry) := []

/-- The port-mask loop of `configure_replication`: ports are Python ints,
each is validated against the 0..10 range before its bit is set
(`port_mask |= (1 << port)`); an out-of-range port raises `ValueError`. -/
def replicationPortMask (m : Nat) : List Int → Except String Nat
  | [] => .ok m
  | p :: rest =>
    if p < 0 ∨ 10 < p then .error "Invalid port number"
    else replicationPortMask (m ||| (1 <<< p.toNat)) rest

/-- `SJA1110FRER.configure_replication`: requires the stream handle to be
defined, validates every egress port while building the replication port
mask, then stores an enabled `SequenceGenerationEntry` under the handle.
An error result carries the state at raise time; both raises happen before
any mutation, so the carried state is the input state. -/
def configure_replication (st : FRERState) (stream_handle : Nat)
    (egress_ports : List Int) : Except (String × FRERState) FRERState :=
  match dictFind st.stream_identifications stream_handle with
  | none => .error ("Stream not defined", st)
  | some _ =>
    match replicationPortMask 0 egress_ports with
    | .error msg => .error (msg, st)
    | .ok port_mask =>
      .ok { st with sequence_generation :=
              (dictInsert st.sequence_generation stream_handle
                ⟨stream_handle, port_mask, 0, true⟩) }

/-! ## `src/sja1110_real_frer.py` — `SJA1110SwitchConfig` -/

/-- `FRERStream` dataclass of the real-FRER builder. -/
structure RealFrerStream where
  stream_id : Nat
  ingress_port : Nat
  egress_ports : List Nat
  vlan_id : Nat
  priority : Nat
  cb_enable : Bool := true
  rtag_type : Nat := 0xF1C1
  sequence_history : Nat := 16

/-- `CBSequenceGeneration` dataclass. -/
structure CBSequenceGeneration where
  stream_handle : Nat
  port_mask : Nat
  seq_num : Nat := 0
  enabled : Bool := true

/-- `CBIndividualRecovery` dataclass. -/
structure CBIndividualRecovery where
  stream_handle : Nat
  ingress_port : Nat
  seq_num : Nat := 0
  history_len : Nat := 16
  reset_timeout : Nat := 100
  enabled : Bool := true

/-- The DPI dict built by `SJA1110SwitchConfig._configure_dpi`. -/
structure RealDpiEntry where
  stream_id : Nat
  vlan_id : Nat
  priority : Nat
  cb_en : Nat
  rtag_type : Nat
  sn_num_greater : Nat
  ingress_port : Nat

/-- The mutable state of a `SJA1110SwitchConfig` instance. -/
structure RealFrerState where
  streams : List RealFrerStream := []
  cb_seq_gen_entries : List CBSequenceGeneration := []
  cb_ind_rec_entries : List CBIndividualRecovery := []
  dpi_entries : List (Nat × RealDpiEntry) := []

/-- The unvalidated port-mask loop of `add_frer_stream`
(`port_mask |= (1 << port)` over the egress ports). -/
def realPortMask (m : Nat) : List Nat → Nat
  | [] => m
  | p :: rest => realPortMask (m ||| (1 <<< p)) rest

/-- `SJA1110SwitchConfig.add_frer_stream`: records the stream, appends a
`CBSequenceGeneration` replication entry (only when the stream has more than
one egress port), appends a `CBIndividualRecovery` entry, and registers the
stream in the DPI dict. -/
def add_frer_stream (st : RealFrerState) (s : RealFrerStream) : RealFrerState :=
  let st1 := { st with streams := st.streams ++ [s] }
  let seqEntry : CBSequenceGeneration :=
    ⟨s.stream_id, realPortMask 0 s.egress_ports, 0, s.cb_enable⟩
  let st2 :=
    if 1 < s.egress_ports.length then
      { st1 with cb_seq_gen_entries := st1.cb_seq_gen_entries ++ [seqEntry] }
    else st1
  let recEntry : CBIndividualRecovery :=
    ⟨s.stream_id, s.ingress_port, 0, s.sequence_history, 100, s.cb_enable⟩
  let st3 := { st2 with cb_ind_rec_entries := st2.cb_ind_rec_entries ++ [recEntry] }
  let dpiEntry : RealDpiEntry :=
    ⟨s.stream_id, s.vlan_id, s.priority, if s.cb_enable then 1 else 0,
      s.rtag_type, 1, s.ingress_port⟩
  { st3 with dpi_entries := dictInsert st3.dpi_entries s.stream_id dpiEntry }

/-! ## `src/goldbox_frer_config.py` — `GoldBoxFRERConfig` -/

/-- `FRERTestScenario` dataclass. -/
structure FRERTestScenario where
  name : String
  description : String
  input_port : Int
  replicate_to : List Int
  eliminate_at : Option Int
  vlan_id : Nat
  priority : Nat
  expected_behavior : String

/-- `GoldBoxFRERConfig.validate_port`: ports 20 and above are direct S32G
connections (rejected with a warning), and valid SJA1110 ports are 1..10
(port 0 is reserved). -/
def validate_port (port : Int) : Bool :=
  if 20 ≤ port then false
  else if port < 1 ∨ 10 < port then false
  else true

/-- The scenario list held by a `GoldBoxFRERConfig` instance. -/
structure GoldBoxState where
  test_scenarios : List FRERTestScenario := []

/-- The validated-replication-port loop of `add_test_scenario`. -/
def validateReplicationPorts : List Int → Bool
  | [] => true
  | p :: rest => validate_port p && validateReplicationPorts rest

/-- `GoldBoxFRERConfig.add_test_scenario`: validates the input port, every
replication port and (when truthy) the elimination port, raising
`ValueError` before the scenario is appended; the scenario list is extended
only after all validation passes.  An error result carries the state at
raise time, which is always the unchanged input state. -/
def add_test_scenario (st : GoldBoxState) (sc : FRERTestScenario) :
    Except (String × GoldBoxState) GoldBoxState :=
  if validate_port sc.input_port = false then
    .error ("Invalid input port for scenario", st)
  else if validateReplicationPorts sc.replicate_to = false then
    .error ("Invalid replication port for scenario", st)
  else if (match sc.eliminate_at with
           | some v => v ≠ 0 && validate_port v = false
           | none => false) then
    .error ("Invalid elimination port for scenario", st)
  else
    .ok { st with test_scenarios := st.test_scenarios ++ [sc] }

/-! ## `sja1110_upload.py` — `SJA1110Uploader.upload_switch_config` -/

/-- The marker auto-repair step of `upload_switch_config`: when the image
does not start with `IMAGE_VALID_MARKER`, the canonical marker is prepended
once before proceeding with the upload. -/
def uploadPrepareConfig (data : List Nat) : List Nat :=
  if IMAGE_VALID_MARKER.isPrefixOf data then data
  else IMAGE_VALID_MARKER ++ data

/-! ## `verify_firmware.py` — `FirmwareVerifier.verify_switch_config` -/

/-- `FirmwareVerifier.verify_switch_config`, reduced to its return value:
it returns `False` exactly when the marker is missing or when (the file has
at least 12 bytes and) the little-endian device id at offset 8 differs from
`SJA1110_DEVICE_ID`; the flag, size and config-region checks only print
warnings.  No CRC of any kind is recomputed or compared — the trailer is
never inspected. -/
def verify_switch_config (data : List Nat) : Bool :=
  IMAGE_VALID_MARKER.isPrefixOf data &&
    (data.length < 12 || leDecode ((data.drop 8).take 4) == SJA1110_DEVICE_ID)

/-! ## `tools/fix_crc.py` — `fix_crc` -/

/-- `fix_crc`: for a file of fewer than 4 bytes raise `ValueError`; otherwise
split off the 4-byte trailer, recompute the CRC-32 of the payload, and
rewrite the file only when the stored little-endian trailer differs.  The
result is the final file content together with whether a write happened. -/
def fix_crc (data : List Nat) : Except String (List Nat × Bool) :=
  if data.length < 4 then
    .error "too small to contain a CRC32 trailer"
  else
    let payload := data.take (data.length - 4)
    let old_crc_bytes := data.drop (data.length - 4)
    let new_crc := crc32 payload
    if leDecode old_crc_bytes = new_crc then .ok (data, false)
    else .ok (payload ++ le32 new_crc, true)

/-! ## `sja1110_cli.py` — `SJA1110CLI.flash_firmware` (serial transfer) -/

/-- Python substring test `pat in s` on character lists. -/
def containsSub (pat : List Char) : List Char → Bool
  | [] => pat.isEmpty
  | c :: t => pat.isPrefixOf (c :: t) || containsSub pat t

/-- `'ready' in response.lower()`-style token test. -/
def responseHasToken (response : String) (tok : String) : Bool :=
  containsSub tok.toList (response.toList.map Char.toLower)

/-- The chunked read loop of `flash_firmware`: the file is consumed in
1024-byte reads until exhausted, so the transmitted chunks are the
consecutive 1024-byte slices of the file (the last one possibly shorter). -/
def flashChunks (data : List Nat) : List (List Nat) :=
  if h : data = [] then []
  else data.take 1024 :: flashChunks (data.drop 1024)
termination_by data.length
decreasing_by
  have hl : 0 < data.length := List.length_pos.mpr h
  simp only [List.length_drop]
  omega

/-- The serial transfer stage of `flash_firmware`, starting from the response
to the `flash <size>` command: a response containing the token `ready`
(case-insensitively) leads to transmitting the whole file as 1024-byte
chunks; any other response (for example `error: bad size`) raises
`RuntimeError` before any chunk is written to the serial port. -/
def flashTransfer (flashResponse : String) (data : List Nat) :
    Except String (List (List Nat)) :=
  if responseHasToken flashResponse "ready" then .ok (flashChunks data)
  else .error "Flash preparation failed"

/-! ## Derived measures and concrete witness inputs -/

/-- Total encoded length of the UC firmware stream entries: each entry is
the 7 fixed bytes plus one byte per destination port, zero-padded to at
least 16 bytes. -/
def ucEntriesLen : List CorrectStream → Nat
  | [] => 0
  | s :: t => max 16 (7 + s.dst_ports.length) + ucEntriesLen t

/-- A `SJA1110FRER` state with the stream of concrete scenario A defined
(`stream_handle 1`, VLAN 100, priority 7). -/
def demoFrerState : FRERState :=
  { stream_identifications :=
      [(1, { stream_handle := 1, vlan_id := some 100, priority := some 7 })] }

/-- A test scenario whose replication ports include port 11, which is beyond
the physical port range accepted by `validate_port`. -/
def demoBadScenario : FRERTestScenario :=
  { name := "Bad", description := "replication port out of range",
    input_port := 2, replicate_to := [3, 11], eliminate_at := none,
    vlan_id := 100, priority := 7, expected_behavior := "rejected" }

/-- A 12-byte image with a correct marker and device id but an arbitrary
(non-CRC) trailer: the device-id word doubles as the final four bytes. -/
def c5BadImage : List Nat := IMAGE_VALID_MARKER ++ le32 SJA1110_DEVICE_ID

/-! ## General lemmas about the byte-level helpers -/

theorem le32_length (v : Nat) : (le32 v).length = 4 := rfl

theorem leDecode_le32 (v : Nat) (h : v < 4294967296) : leDecode (le32 v) = v := by
  simp only [le32, leDecode, List.foldr]
  omega

theorem le32_leDecode (l : List Nat) (hlen : l.length = 4) (hb : ∀ b ∈ l, b < 256) :
    le32 (leDecode l) = l := by
  match l, hlen with
  | [a, b, c, d], _ =>
    have ha : a < 256 := hb a (by simp)
    have hbb : b < 256 := hb b (by simp)
    have hc : c < 256 := hb c (by simp)
    have hd : d < 256 := hb d (by simp)
    simp only [le32, leDecode, List.foldr, List.cons.injEq, and_true]
    omega

theorem crc32_lt (l : List Nat) : crc32 l < 4294967296 :=
  Nat.lt_of_le_of_lt Nat.and_le_right (by decide)

theorem isPrefixOf_self_append (l t : List Nat) : l.isPrefixOf (l ++ t) = true := by
  induction l with
  | nil => simp [List.isPrefixOf]
  | cons a r ih => simp [List.isPrefixOf, ih]

theorem writeAt_length (t : List Nat) (o : Nat) (e : List Nat)
    (h : o + e.length ≤ t.length) : (writeAt t o e).length = t.length := by
  simp only [writeAt, List.length_append, List.length_take, List.length_drop]
  omega

theorem writeAt_append_right (A B : List Nat) (o : Nat) (e : List Nat)
    (h : A.length ≤ o) : writeAt (A ++ B) o e = A ++ writeAt B (o - A.length) e := by
  simp only [writeAt, List.take_append_eq_append_take, List.drop_append_eq_append_drop,
    List.take_of_length_le h, List.drop_of_length_le (by omega : A.length ≤ o + e.length)]
  have h2 : o - A.length + e.length = o + e.length - A.length := by omega
  simp [h2, List.append_assoc]

theorem writeAt_replicate (n o : Nat) (e : List Nat) (h : o + e.length ≤ n) :
    writeAt (List.replicate n (0 : Nat)) o e
      = List.replicate o 0 ++ e ++ List.replicate (n - o - e.length) 0 := by
  simp only [writeAt, List.take_replicate, List.drop_replicate, List.length_replicate]
  have h1 : min o n = o := by omega
  have h2 : n - (o + e.length) = n - o - e.length := by omega
  rw [h1, h2]

theorem writeAt_seg (A : List Nat) (m o k : Nat) (e : List Nat)
    (hk : o = A.length + k) (hroom : k + e.length ≤ m) :
    writeAt (A ++ List.replicate m 0) o e
      = (A ++ (List.replicate k 0 ++ e)) ++ List.replicate (m - k - e.length) 0 := by
  rw [writeAt_append_right A _ o e (by omega)]
  have hkk : o - A.length = k := by omega
  rw [hkk, writeAt_replicate m k e hroom]
  simp [List.append_assoc]

theorem sumBytes_eq_sum (l : List Nat) : sumBytes l = l.sum := by
  have key : ∀ (l : List Nat) (a : Nat), l.foldl (· + ·) a = a + l.sum := by
    intro l
    induction l with
    | nil => simp
    | cons x t ih => intro a; simp [List.sum_cons, ih, Nat.add_assoc]
  simpa [sumBytes] using key l 0

/-! ## Reduction lemmas for the `Except` monad -/

@[simp] theorem okThenBind {ε α β : Type} (a : α) (f : α → Except ε β) :
    (Except.ok a >>= f) = f a := rfl

@[simp] theorem errThenBind {ε α β : Type} (e : ε) (f : α → Except ε β) :
    (Except.error e >>= f) = Except.error e := rfl

/-! ## Claim theorems -/

/-- **C4**: an image that does not begin with the 8-byte canonical marker is
recovered by `upload_switch_config` by prepending the canonical marker bytes
once; the repaired image always passes the marker validation, so an image
whose marker bytes were corrupted fails the marker check but validates after
the auto-repair. -/
theorem c4_marker_auto_repair (data : List Nat) :
    (IMAGE_VALID_MARKER.isPrefixOf data = false →
      uploadPrepareConfig data = IMAGE_VALID_MARKER ++ data) ∧
    IMAGE_VALID_MARKER.isPrefixOf (uploadPrepareConfig data) = true := by
  unfold uploadPrepareConfig
  by_cases hp : IMAGE_VALID_MARKER.isPrefixOf data
  · simp [hp]
  · simp only [Bool.not_eq_true] at hp
    simp [hp, isPrefixOf_self_append]

/-- **C4 witness**: a concrete image whose marker was corrupted to zeros
fails the marker check and validates after the auto-repair. -/
theorem c4_marker_auto_repair_witness :
    IMAGE_VALID_MARKER.isPrefixOf [0, 0, 0, 0, 0, 0, 0, 0, 1, 2] = false ∧
    uploadPrepareConfig [0, 0, 0, 0, 0, 0, 0, 0, 1, 2]
      = IMAGE_VALID_MARKER ++ [0, 0, 0, 0, 0, 0, 0, 0, 1, 2] ∧
    IMAGE_VALID_MARKER.isPrefixOf
      (uploadPrepareConfig [0, 0, 0, 0, 0, 0, 0, 0, 1, 2]) = true :=
  ⟨by decide, (c4_marker_auto_repair [0, 0, 0, 0, 0, 0, 0, 0, 1, 2]).1 (by decide),
    (c4_marker_auto_repair [0, 0, 0, 0, 0, 0, 0, 0, 1, 2]).2⟩

set_option maxRecDepth 40000 in
/-- **C5 counterexample**: `verify_switch_config` accepts an image whose
4-byte trailer does not match the CRC-32 of the preceding payload — the
validator never recomputes any CRC, contradicting the claim that a stale
trailer is rejected with `CrcMismatch`. -/
theorem c5_stale_trailer_accepted :
    verify_switch_config c5BadImage = true ∧
    crc32 (c5BadImage.take (c5BadImage.length - 4))
      ≠ leDecode (c5BadImage.drop (c5BadImage.length - 4)) := by
  constructor
  · decide
  · decide

/-- **C5 (amended)**: `verify_switch_config` checks only the marker and the
little-endian device id at offset 8 (size, flag and config-region checks are
warnings that do not affect the result); it returns `true` for any image with
correct marker and device id regardless of the trailer, so a stale or wrong
CRC trailer is not rejected. -/
theorem c5_verify_ignores_crc (rest : List Nat) :
    verify_switch_config (IMAGE_VALID_MARKER ++ le32 SJA1110_DEVICE_ID ++ rest) = true := by
  unfold verify_switch_config
  have h1 : IMAGE_VALID_MARKER.isPrefixOf
      (IMAGE_VALID_MARKER ++ le32 SJA1110_DEVICE_ID ++ rest) = true := by
    rw [List.append_assoc]
    exact isPrefixOf_self_append _ _
  have h2 : ((IMAGE_VALID_MARKER ++ le32 SJA1110_DEVICE_ID ++ rest).drop 8).take 4
      = le32 SJA1110_DEVICE_ID := by
    rw [List.append_assoc]
    rw [show (8 : Nat) = IMAGE_VALID_MARKER.length from rfl, List.drop_left]
    rw [show (4 : Nat) = (le32 SJA1110_DEVICE_ID).length from rfl, List.take_left]
  rw [h1, h2, leDecode_le32 _ (by decide)]
  simp

/-- **C8**: serializing a `SequenceGenerationEntry` packs the replication
port mask as a single byte: a mask of 256 or more makes `struct.pack` raise
(a validation error, not silent truncation), and every successful
serialization stores the full mask, unchanged, as byte 2 of the entry. -/
theorem c8_port_mask_width (e : SequenceGenerationEntry) :
    (256 ≤ e.port_mask → ∃ msg, e.to_bytes = .error msg) ∧
    (∀ bs, e.to_bytes = .ok bs → bs.length = 6 ∧ bs.get? 2 = some e.port_mask) := by
  have hflag : (if e.enable = true then (128 : Nat) else 0) < 256 := by
    by_cases he : e.enable <;> simp [he]
  constructor
  · intro hm
    have hmask : ¬ e.port_mask < 256 := by omega
    unfold SequenceGenerationEntry.to_bytes packBEH packB
    by_cases h1 : e.stream_handle < 65536
    · rw [if_pos h1]
      simp only [okThenBind]
      rw [if_neg hmask]
      exact ⟨_, rfl⟩
    · rw [if_neg h1]
      exact ⟨_, rfl⟩
  · intro bs hok
    unfold SequenceGenerationEntry.to_bytes packBEH packB at hok
    by_cases h1 : e.stream_handle < 65536
    · rw [if_pos h1] at hok
      simp only [okThenBind] at hok
      by_cases h2 : e.port_mask < 256
      · rw [if_pos h2] at hok
        simp only [okThenBind] at hok
        rw [if_pos hflag] at hok
        simp only [okThenBind] at hok
        by_cases h3 : e.sequence_number < 65536
        · rw [if_pos h3] at hok
          simp only [okThenBind, Except.ok.injEq] at hok
          subst hok
          simp [be16]
        · rw [if_neg h3] at hok
          exact absurd hok (by simp)
      · rw [if_neg h2] at hok
        exact absurd hok (by simp)
    · rw [if_neg h1] at hok
      exact absurd hok (by simp)

/-- **C8 witness**: a mask with only port 10 set (1024) is rejected by the
serializer, while the two-port mask 0b11000 is encoded in full as byte 2. -/
theorem c8_port_mask_width_witness :
    (∃ msg, SequenceGenerationEntry.to_bytes ⟨1, 1024, 0, true⟩ = .error msg) ∧
    (SequenceGenerationEntry.to_bytes ⟨1, 24, 0, true⟩ = .ok [0, 1, 24, 128, 0, 0] ∧
      ([0, 1, 24, 128, 0, 0] : List Nat).get? 2 = some 24) :=
  ⟨(c8_port_mask_width ⟨1, 1024, 0, true⟩).1 (by decide),
    by
      have h := (c8_port_mask_width ⟨1, 24, 0, true⟩).2 [0, 1, 24, 128, 0, 0] rfl
      exact ⟨rfl, h.2⟩⟩

/-- Helper: in a file that ends in the little-endian CRC-32 of everything
before it, the last four bytes are exactly that trailer. -/
theorem trailer_round (A : List Nat) :
    (A ++ le32 (crc32 A)).drop ((A ++ le32 (crc32 A)).length - 4)
      = le32 (crc32 ((A ++ le32 (crc32 A)).take ((A ++ le32 (crc32 A)).length - 4))) := by
  have hl : (A ++ le32 (crc32 A)).length = A.length + 4 := by
    simp [le32_length]
  rw [show (A ++ le32 (crc32 A)).length - 4 = A.length by omega]
  rw [List.drop_left, List.take_left]

/-- Helper: `fix_crc` recognises a correct trailer and performs no write. -/
theorem fix_crc_fixed_point (A : List Nat) :
    fix_crc (A ++ le32 (crc32 A)) = .ok (A ++ le32 (crc32 A), false) := by
  have hl : (A ++ le32 (crc32 A)).length = A.length + 4 := by
    simp [le32_length]
  unfold fix_crc
  rw [if_neg (by omega : ¬ (A ++ le32 (crc32 A)).length < 4)]
  simp only [hl, Nat.add_sub_cancel, List.drop_left, List.take_left]
  rw [if_pos (leDecode_le32 _ (crc32_lt _))]

/-- **C10**: applied to a file shorter than 4 bytes, `fix_crc` raises
`ValueError` before performing any write (on the error path the file content
is never rewritten); on every successful application the result keeps the
file length and the whole prefix before the final 4 bytes, so the 4-byte
trailer is the only part of the file that can change. -/
theorem c10_fix_crc_short_input (data : List Nat) :
    (data.length < 4 → ∃ msg, fix_crc data = .error msg) ∧
    (∀ d1 w, fix_crc data = .ok (d1, w) →
      d1.length = data.length ∧
      d1.take (data.length - 4) = data.take (data.length - 4)) := by
  constructor
  · intro hlen
    unfold fix_crc
    rw [if_pos hlen]
    exact ⟨_, rfl⟩
  · intro d1 w hok
    unfold fix_crc at hok
    by_cases hlen : data.length < 4
    · rw [if_pos hlen] at hok
      exact absurd hok (by simp)
    · rw [if_neg hlen] at hok
      by_cases heq : leDecode (data.drop (data.length - 4))
          = crc32 (data.take (data.length - 4))
      · rw [if_pos heq] at hok
        simp only [Except.ok.injEq, Prod.mk.injEq] at hok
        obtain ⟨hd, _⟩ := hok
        subst hd
        exact ⟨rfl, rfl⟩
      · rw [if_neg heq] at hok
        simp only [Except.ok.injEq, Prod.mk.injEq] at hok
        obtain ⟨hd, _⟩ := hok
        subst hd
        have hA : (data.take (data.length - 4)).length = data.length - 4 := by
          simp only [List.length_take]
          omega
        constructor
        · simp only [List.length_append, hA, le32_length]
          omega
        · rw [List.take_append_eq_append_take, hA, Nat.sub_self, List.take_zero,
            List.append_nil, List.take_of_length_le (le_of_eq hA)]

/-- **C10 witness**: a 3-byte file is rejected before any write; on a 5-byte
file only the last four bytes can change. -/
theorem c10_fix_crc_short_input_witness :
    (∃ msg, fix_crc [1, 2, 3] = .error msg) ∧
    (∀ d1 w, fix_crc [5, 6, 7, 8, 9] = .ok (d1, w) →
      d1.length = 5 ∧ d1.take 1 = [5]) := by
  constructor
  · exact (c10_fix_crc_short_input [1, 2, 3]).1 (by decide)
  · intro d1 w hok
    have h := (c10_fix_crc_short_input [5, 6, 7, 8, 9]).2 d1 w hok
    simpa using h

/-- **C6**: `fix_crc` is idempotent: on any byte file of length at least 4 a
first application yields content whose final 4 bytes are the little-endian
CRC-32 of all preceding bytes, and a second application recognises the
trailer as correct and performs no write (flag `false`, content unchanged). -/
theorem c6_fix_crc_idempotent (data : List Nat)
    (hlen : 4 ≤ data.length) (hb : ∀ b ∈ data, b < 256) :
    ∃ d1 w, fix_crc data = .ok (d1, w) ∧
      d1.drop (d1.length - 4) = le32 (crc32 (d1.take (d1.length - 4))) ∧
      fix_crc d1 = .ok (d1, false) := by
  have hnl : ¬ data.length < 4 := by omega
  by_cases heq : leDecode (data.drop (data.length - 4))
      = crc32 (data.take (data.length - 4))
  · have hsplit : data = data.take (data.length - 4) ++ le32 (crc32 (data.take (data.length - 4))) := by
      have hdlen : (data.drop (data.length - 4)).length = 4 := by
        simp only [List.length_drop]
        omega
      have hdb : ∀ b ∈ data.drop (data.length - 4), b < 256 := fun b hbm =>
        hb b (List.mem_of_mem_drop hbm)
      calc data = data.take (data.length - 4) ++ data.drop (data.length - 4) :=
            (List.take_append_drop _ _).symm
        _ = data.take (data.length - 4)
              ++ le32 (leDecode (data.drop (data.length - 4))) := by
            rw [le32_leDecode _ hdlen hdb]
        _ = data.take (data.length - 4)
              ++ le32 (crc32 (data.take (data.length - 4))) := by rw [heq]
  
    refine ⟨data, false, ?_, ?_, ?_⟩
    · unfold fix_crc
      rw [if_neg hnl, if_pos heq]
    · conv_lhs => rw [hsplit]
      conv_rhs => rw [hsplit]
      rw [show data.length = (data.take (data.length - 4)
          ++ le32 (crc32 (data.take (data.length - 4)))).length by rw [← hsplit]]
      exact trailer_round _
    · conv_lhs => rw [hsplit]
      rw [fix_crc_fixed_point, ← hsplit]
  · refine ⟨data.take (data.length - 4) ++ le32 (crc32 (data.take (data.length - 4))),
      true, ?_, trailer_round _, fix_crc_fixed_point _⟩
    unfold fix_crc
    rw [if_neg hnl, if_neg heq]

/-- **C6 witness**: idempotence of `fix_crc` on the concrete 5-byte file
`[1, 2, 3, 4, 5]`. -/
theorem c6_fix_crc_idempotent_witness :
    ∃ d1 w, fix_crc [1, 2, 3, 4, 5] = .ok (d1, w) ∧
      d1.drop (d1.length - 4) = le32 (crc32 (d1.take (d1.length - 4))) ∧
      fix_crc d1 = .ok (d1, false) :=
  c6_fix_crc_idempotent [1, 2, 3, 4, 5] (by decide) (by decide)

/-- Helper: bit description of the validated replication port mask
accumulator of `configure_replication`. -/
theorem replicationPortMask_spec :
    ∀ (ports : List Int) (m r : Nat), replicationPortMask m ports = .ok r →
      ∀ q : Nat, (r.testBit q = true ↔ m.testBit q = true ∨ (q : Int) ∈ ports) := by
  intro ports
  induction ports with
  | nil =>
    intro m r hok q
    simp only [replicationPortMask, Except.ok.injEq] at hok
    subst hok
    simp
  | cons p rest ih =>
    intro m r hok q
    by_cases hv : p < 0 ∨ 10 < p
    · simp only [replicationPortMask, if_pos hv] at hok
      exact absurd hok (by simp)
    · simp only [replicationPortMask, if_neg hv] at hok
      have hp0 : (0 : Int) ≤ p := by omega
      have hcast : ((p.toNat : Nat) : Int) = p := Int.toNat_of_nonneg hp0
      have h := ih _ _ hok q
      rw [h]
      simp only [Nat.testBit_or, Nat.one_shiftLeft, Nat.testBit_two_pow,
        List.mem_cons, Bool.or_eq_true, decide_eq_true_eq]
      constructor
      · rintro (⟨hm | hq⟩ | hr)
        · exact Or.inl hm
        · refine Or.inr (Or.inl ?_)
          rw [← hq, hcast]
        · exact Or.inr (Or.inr hr)
      · rintro (hm | hq | hr)
        · exact Or.inl (Or.inl hm)
        · refine Or.inl (Or.inr ?_)
          have : ((q : Int)).toNat = q := by omega
          rw [← hq] at hcast
          omega
        · exact Or.inr hr

/-- Helper: an invalid egress port makes the mask loop of
`configure_replication` raise `ValueError`. -/
theorem replicationPortMask_invalid :
    ∀ (ports : List Int) (m : Nat), (∃ p ∈ ports, p < 0 ∨ 10 < p) →
      replicationPortMask m ports = .error "Invalid port number" := by
  intro ports
  induction ports with
  | nil =>
    intro m h
    obtain ⟨p, hp, _⟩ := h
    exact absurd hp (List.not_mem_nil p)
  | cons p rest ih =>
    intro m h
    by_cases hv : p < 0 ∨ 10 < p
    · simp only [replicationPortMask, if_pos hv]
    · simp only [replicationPortMask, if_neg hv]
      obtain ⟨p2, hp2, hbad⟩ := h
      rcases List.mem_cons.mp hp2 with heq | hmem
      · subst heq
        exact absurd hbad hv
      · exact ih _ ⟨p2, hmem, hbad⟩

/-- Helper: Python dict assignment followed by lookup of the same key. -/
theorem dictFind_dictInsert {α : Type} (l : List (Nat × α)) (k : Nat) (v : α) :
    dictFind (dictInsert l k v) k = some v := by
  induction l with
  | nil => simp [dictInsert, dictFind]
  | cons kv rest ih =>
    by_cases hk : kv.1 = k
    · simp [dictInsert, dictFind, hk]
    · simp [dictInsert, dictFind, hk, ih]

/-- Helper: bit description of the unvalidated replication mask of
`add_frer_stream`. -/
theorem realPortMask_spec :
    ∀ (ports : List Nat) (m : Nat) (q : Nat),
      ((realPortMask m ports).testBit q = true ↔ m.testBit q = true ∨ q ∈ ports) := by
  intro ports
  induction ports with
  | nil =>
    intro m q
    simp [realPortMask]
  | cons p rest ih =>
    intro m q
    simp only [realPortMask]
    rw [ih]
    simp only [Nat.testBit_or, Nat.one_shiftLeft, Nat.testBit_two_pow,
      List.mem_cons, Bool.or_eq_true, decide_eq_true_eq]
    constructor
    · rintro (⟨hm | hq⟩ | hr)
      · exact Or.inl hm
      · exact Or.inr (Or.inl hq.symm)
      · exact Or.inr (Or.inr hr)
    · rintro (hm | hq | hr)
      · exact Or.inl (Or.inl hm)
      · exact Or.inl (Or.inr hq.symm)
      · exact Or.inr hr

/-- **C3**: whenever `configure_replication` succeeds, the stored
sequence-generation entry has exactly the bits of the egress ports set in
its port mask (bit `p` set iff `p` is an egress port, no other bits); and
`add_frer_stream` (for a stream with more than one egress port) appends a
sequence-generation entry whose mask likewise has exactly the egress-port
bits. -/
theorem c3_replication_port_mask :
    (∀ st h ports st2, configure_replication st h ports = .ok st2 →
      ∃ e, dictFind st2.sequence_generation h = some e ∧ e.stream_handle = h ∧
        ∀ q : Nat, (e.port_mask.testBit q = true ↔ (q : Int) ∈ ports)) ∧
    (∀ st s, 1 < s.egress_ports.length →
      (add_frer_stream st s).cb_seq_gen_entries
        = st.cb_seq_gen_entries
          ++ [⟨s.stream_id, realPortMask 0 s.egress_ports, 0, s.cb_enable⟩] ∧
      ∀ q : Nat, ((realPortMask 0 s.egress_ports).testBit q = true
        ↔ q ∈ s.egress_ports)) := by
  constructor
  · intro st h ports st2 hok
    unfold configure_replication at hok
    cases hf : dictFind st.stream_identifications h with
    | none =>
      rw [hf] at hok
      exact absurd hok (by simp)
    | some ident =>
      rw [hf] at hok
      cases hm : replicationPortMask 0 ports with
      | error msg =>
        rw [hm] at hok
        exact absurd hok (by simp)
      | ok mask =>
        rw [hm] at hok
        simp only [Except.ok.injEq] at hok
        subst hok
        refine ⟨⟨h, mask, 0, true⟩, ?_, rfl, ?_⟩
        · exact dictFind_dictInsert _ _ _
        · intro q
          have := replicationPortMask_spec ports 0 mask hm q
          simpa using this
  · intro st s hlen
    constructor
    · simp [add_frer_stream, hlen]
    · intro q
      simpa using realPortMask_spec s.egress_ports 0 q

/-- **C3 witness**: concrete scenario A — stream 1 with egress ports `[3, 4]`
produces a replication entry with port mask `0b11000 = 24`. -/
theorem c3_replication_port_mask_witness :
    ∃ st2, configure_replication demoFrerState 1 [3, 4] = .ok st2 ∧
      ∃ e, dictFind st2.sequence_generation 1 = some e ∧ e.port_mask = 24 ∧
        (∀ q : Nat, (e.port_mask.testBit q = true ↔ (q : Int) ∈ [(3 : Int), 4])) := by
  obtain ⟨e, he, hh, hq⟩ :=
    c3_replication_port_mask.1 demoFrerState 1 [3, 4] _ rfl
  refine ⟨_, rfl, e, he, ?_, hq⟩
  have h24 : ∀ i : Nat, (24 : Nat).testBit i = (decide (3 = i) || decide (4 = i)) := by
    intro i
    by_cases hi : i < 5
    · interval_cases i <;> decide
    · have h1 : (24 : Nat) < 2 ^ i :=
        lt_of_lt_of_le (by decide : (24 : Nat) < 2 ^ 5)
          (Nat.pow_le_pow_right (by decide) (by omega))
      rw [Nat.testBit_lt_two_pow h1]
      have h3 : ¬ (3 = i) := by omega
      have h4 : ¬ (4 = i) := by omega
      simp [h3, h4]
  apply Nat.eq_of_testBit_eq
  intro i
  rw [h24]
  by_cases hb : e.port_mask.testBit i = true
  · rw [hb]
    have hmem := (hq i).mp hb
    simp only [List.mem_cons, List.not_mem_nil, or_false] at hmem
    rcases hmem with h3 | h4
    · have : i = 3 := by omega
      subst this
      decide
    · have : i = 4 := by omega
      subst this
      decide
  · rw [Bool.not_eq_true] at hb
    rw [hb]
    symm
    rw [Bool.or_eq_false_iff]
    constructor
    · by_contra hc
      simp only [decide_eq_false_iff_not, not_not] at hc
      subst hc
      have : e.port_mask.testBit 3 = true := (hq 3).mpr (by simp)
      rw [this] at hb
      cases hb
    · by_contra hc
      simp only [decide_eq_false_iff_not, not_not] at hc
      subst hc
      have : e.port_mask.testBit 4 = true := (hq 4).mpr (by simp)
      rw [this] at hb
      cases hb

/-- Helper: the replication-port loop of `add_test_scenario` reports failure
when any port fails `validate_port`. -/
theorem validateReplicationPorts_invalid :
    ∀ ports : List Int, (∃ p ∈ ports, validate_port p = false) →
      validateReplicationPorts ports = false := by
  intro ports
  induction ports with
  | nil =>
    intro h
    obtain ⟨p, hp, _⟩ := h
    exact absurd hp (List.not_mem_nil p)
  | cons p rest ih =>
    intro h
    obtain ⟨p2, hp2, hbad⟩ := h
    rcases List.mem_cons.mp hp2 with heq | hmem
    · subst heq
      simp [validateReplicationPorts, hbad]
    · simp only [validateReplicationPorts, ih ⟨p2, hmem, hbad⟩, Bool.and_false]

/-- **C7**: encoding a stream whose egress ports include a port outside the
valid physical range makes `configure_replication` raise `ValueError`
carrying the unchanged input state (the raise happens before the
sequence-generation table is touched, so no bytes are written and no
configuration state changes); likewise `add_test_scenario` rejects a
scenario whose ingress (input) port or any replication port fails
`validate_port`, raising before the scenario list is extended. -/
theorem c7_invalid_port_rejected :
    (∀ st h ports, (∃ ident, dictFind st.stream_identifications h = some ident) →
      (∃ p ∈ ports, p < 0 ∨ 10 < p) →
      configure_replication st h ports = .error ("Invalid port number", st)) ∧
    (∀ st sc, (validate_port sc.input_port = false ∨
        ∃ p ∈ sc.replicate_to, validate_port p = false) →
      ∃ msg, add_test_scenario st sc = .error (msg, st)) := by
  constructor
  · intro st h ports hdef hbad
    obtain ⟨ident, hident⟩ := hdef
    unfold configure_replication
    rw [hident, replicationPortMask_invalid ports 0 hbad]
  · intro st sc hbad
    unfold add_test_scenario
    by_cases hin : validate_port sc.input_port = false
    · rw [if_pos hin]
      exact ⟨_, rfl⟩
    · rw [if_neg hin]
      rcases hbad with hbad | hbad
      · exact absurd hbad hin
      · rw [if_pos (validateReplicationPorts_invalid sc.replicate_to hbad)]
        exact ⟨_, rfl⟩

/-- **C7 witness**: concrete scenario D — egress port 20 (a direct S32G
port beyond the switch range) raises and leaves the state unchanged, and a
scenario replicating to port 11 is rejected before being recorded. -/
theorem c7_invalid_port_rejected_witness :
    configure_replication demoFrerState 1 [3, 20] =
      .error ("Invalid port number", demoFrerState) ∧
    ∃ msg, add_test_scenario {} demoBadScenario = .error (msg, {}) :=
  ⟨c7_invalid_port_rejected.1 demoFrerState 1 [3, 20] ⟨_, rfl⟩
      ⟨20, by decide, by decide⟩,
    c7_invalid_port_rejected.2 {} demoBadScenario
      (Or.inr ⟨11, by decide, by decide⟩)⟩

/-- Helper: the chunk loop of `flash_firmware` reassembles to the whole
file. -/
theorem flashChunks_flatten :
    ∀ (n : Nat) (data : List Nat), data.length ≤ n →
      (flashChunks data).flatten = data := by
  intro n
  induction n with
  | zero =>
    intro data hlen
    have hd : data = [] := List.eq_nil_of_length_eq_zero (by omega)
    subst hd
    rw [flashChunks]
    simp
  | succ n ih =>
    intro data hlen
    rw [flashChunks]
    by_cases hd : data = []
    · simp [hd]
    · simp only [hd, dif_neg, not_false_iff, List.flatten_cons]
      have hlen2 : (data.drop 1024).length ≤ n := by
        simp only [List.length_drop]
        have : 0 < data.length := List.length_pos.mpr hd
        omega
      rw [ih _ hlen2, List.take_append_drop]

/-- Helper: the chunk loop of `flash_firmware` produces exactly
`ceil(file_size / 1024)` chunks. -/
theorem flashChunks_count :
    ∀ (n : Nat) (data : List Nat), data.length ≤ n →
      (flashChunks data).length = (data.length + 1023) / 1024 := by
  intro n
  induction n with
  | zero =>
    intro data hlen
    have hd : data = [] := List.eq_nil_of_length_eq_zero (by omega)
    subst hd
    rw [flashChunks]
    simp
  | succ n ih =>
    intro data hlen
    rw [flashChunks]
    by_cases hd : data = []
    · simp [hd]
    · simp only [hd, dif_neg, not_false_iff, List.length_cons]
      have hpos : 0 < data.length := List.length_pos.mpr hd
      have hlen2 : (data.drop 1024).length ≤ n := by
        simp only [List.length_drop]
        omega
      rw [ih _ hlen2]
      simp only [List.length_drop]
      omega

/-- Helper: every chunk produced by the loop holds at most 1024 bytes. -/
theorem flashChunks_size :
    ∀ (n : Nat) (data : List Nat), data.length ≤ n →
      ∀ c ∈ flashChunks data, c.length ≤ 1024 := by
  intro n
  induction n with
  | zero =>
    intro data hlen c hc
    have hd : data = [] := List.eq_nil_of_length_eq_zero (by omega)
    subst hd
    rw [flashChunks] at hc
    simp at hc
  | succ n ih =>
    intro data hlen c hc
    rw [flashChunks] at hc
    by_cases hd : data = []
    · simp [hd] at hc
    · simp only [hd, dif_neg, not_false_iff, List.mem_cons] at hc
      rcases hc with hc | hc
      · subst hc
        simp only [List.length_take]
        omega
      · have hpos : 0 < data.length := List.length_pos.mpr hd
        exact ih (data.drop 1024) (by simp only [List.length_drop]; omega) c hc

/-- **C9**: in the serial flash protocol, a `flash <size>` response containing
the token `ready` leads to transmitting the whole file in order as exactly
`ceil(file_size/1024)` chunks of at most 1024 bytes each; a response without
the token — such as `error: bad size` — raises `RuntimeError` before any
chunk is written to the serial port. -/
theorem c9_flash_protocol (resp : String) (data : List Nat) :
    (responseHasToken resp "ready" = true →
      flashTransfer resp data = .ok (flashChunks data) ∧
      (flashChunks data).length = (data.length + 1023) / 1024 ∧
      (∀ c ∈ flashChunks data, c.length ≤ 1024) ∧
      (flashChunks data).flatten = data) ∧
    (responseHasToken resp "ready" = false →
      flashTransfer resp data = .error "Flash preparation failed") := by
  constructor
  · intro hr
    refine ⟨?_, flashChunks_count data.length data le_rfl,
      flashChunks_size data.length data le_rfl,
      flashChunks_flatten data.length data le_rfl⟩
    unfold flashTransfer
    rw [hr]
    simp
  · intro hr
    unfold flashTransfer
    rw [hr]
    simp

set_option maxRecDepth 100000 in
/-- **C9 witness**: with a 2100-byte file, a `ready` response yields 3 chunks
reassembling to the file, while `error: bad size` aborts with an error. -/
theorem c9_flash_protocol_witness :
    (flashTransfer "ready" (List.replicate 2100 7)
        = .ok (flashChunks (List.replicate 2100 7)) ∧
      (flashChunks (List.replicate 2100 7)).length = 3 ∧
      (flashChunks (List.replicate 2100 7)).flatten = List.replicate 2100 7) ∧
    flashTransfer "error: bad size" (List.replicate 2100 7)
      = .error "Flash preparation failed" := by
  have h := (c9_flash_protocol "ready" (List.replicate 2100 7)).1 (by decide)
  refine ⟨⟨h.1, ?_, h.2.2.2⟩,
    (c9_flash_protocol "error: bad size" (List.replicate 2100 7)).2 (by decide)⟩
  rw [h.2.1]
  simp

/-- Helper: a successful byte pack yields the singleton byte. -/
theorem packB_ok (v : Nat) (bs : List Nat) (h : packB v = .ok bs) : bs = [v] := by
  unfold packB at h
  by_cases hv : v < 256
  · rw [if_pos hv] at h
    exact (Except.ok.inj h).symm
  · rw [if_neg hv] at h
    exact absurd h (by simp)

/-- Helper: a successful little-endian short pack yields the 2-byte field. -/
theorem packLEH_ok (v : Nat) (bs : List Nat) (h : packLEH v = .ok bs) : bs = le16 v := by
  unfold packLEH at h
  by_cases hv : v < 65536
  · rw [if_pos hv] at h
    exact (Except.ok.inj h).symm
  · rw [if_neg hv] at h
    exact absurd h (by simp)

/-- Helper: a successful big-endian short pack yields the 2-byte field. -/
theorem packBEH_ok (v : Nat) (bs : List Nat) (h : packBEH v = .ok bs) : bs = be16 v := by
  unfold packBEH at h
  by_cases hv : v < 65536
  · rw [if_pos hv] at h
    exact (Except.ok.inj h).symm
  · rw [if_neg hv] at h
    exact absurd h (by simp)

/-- Helper: a successful little-endian int pack yields the 4-byte field. -/
theorem packLEI_ok (v : Nat) (bs : List Nat) (h : packLEI v = .ok bs) : bs = le32 v := by
  unfold packLEI at h
  by_cases hv : v < 4294967296
  · rw [if_pos hv] at h
    exact (Except.ok.inj h).symm
  · rw [if_neg hv] at h
    exact absurd h (by simp)

/-- Helper: the destination-port loop encodes one byte per port. -/
theorem packPortBytes_ok_length :
    ∀ (ds bs : List Nat), packPortBytes ds = .ok bs → bs.length = ds.length := by
  intro ds
  induction ds with
  | nil =>
    intro bs h
    simp only [packPortBytes, Except.ok.injEq] at h
    subst h
    rfl
  | cons d t ih =>
    intro bs h
    simp only [packPortBytes] at h
    cases hb : packB d with
    | error e =>
      rw [hb] at h
      exact absurd h (by simp)
    | ok b =>
      rw [hb] at h
      simp only [okThenBind] at h
      cases hr : packPortBytes t with
      | error e =>
        rw [hr] at h
        exact absurd h (by simp)
      | ok r =>
        rw [hr] at h
        simp only [okThenBind, Except.ok.injEq] at h
        subst h
        have hbl : b = [d] := packB_ok d b hb
        subst hbl
        simp [ih r hr]

/-- Helper: one successful UC stream entry has length
`max 16 (7 + number of destination ports)`. -/
theorem ucStreamEntry_ok_length (s : CorrectStream) (bs : List Nat)
    (h : ucStreamEntry s = .ok bs) :
    bs.length = max 16 (7 + s.dst_ports.length) := by
  unfold ucStreamEntry at h
  cases h1 : packLEH s.stream_id with
  | error e => rw [h1] at h; exact absurd h (by simp)
  | ok f1 =>
  rw [h1] at h
  simp only [okThenBind] at h
  cases h2 : packLEH s.vlan_id with
  | error e => rw [h2] at h; exact absurd h (by simp)
  | ok f2 =>
  rw [h2] at h
  simp only [okThenBind] at h
  cases h3 : packB s.priority with
  | error e => rw [h3] at h; exact absurd h (by simp)
  | ok f3 =>
  rw [h3] at h
  simp only [okThenBind] at h
  cases h4 : packB s.src_port with
  | error e => rw [h4] at h; exact absurd h (by simp)
  | ok f4 =>
  rw [h4] at h
  simp only [okThenBind] at h
  cases h5 : packB s.dst_ports.length with
  | error e => rw [h5] at h; exact absurd h (by simp)
  | ok f5 =>
  rw [h5] at h
  simp only [okThenBind] at h
  cases h6 : packPortBytes s.dst_ports with
  | error e => rw [h6] at h; exact absurd h (by simp)
  | ok ds =>
  rw [h6] at h
  simp only [okThenBind, Except.ok.injEq] at h
  subst h
  have e1 : f1 = le16 s.stream_id := packLEH_ok _ _ h1
  have e2 : f2 = le16 s.vlan_id := packLEH_ok _ _ h2
  have e3 : f3 = [s.priority] := packB_ok _ _ h3
  have e4 : f4 = [s.src_port] := packB_ok _ _ h4
  have e5 : f5 = [s.dst_ports.length] := packB_ok _ _ h5
  have e6 : ds.length = s.dst_ports.length := packPortBytes_ok_length _ _ h6
  subst e1 e2 e3 e4 e5
  simp only [List.length_append, List.length_replicate, List.length_cons,
    List.length_nil, le16, e6]
  omega

/-- Helper: the UC entry loop produces `ucEntriesLen` bytes. -/
theorem ucEntries_ok_length :
    ∀ (streams : List CorrectStream) (bs : List Nat),
      ucEntries streams = .ok bs → bs.length = ucEntriesLen streams := by
  intro streams
  induction streams with
  | nil =>
    intro bs h
    simp only [ucEntries, Except.ok.injEq] at h
    subst h
    rfl
  | cons s t ih =>
    intro bs h
    simp only [ucEntries] at h
    cases he : ucStreamEntry s with
    | error e => rw [he] at h; exact absurd h (by simp)
    | ok eb =>
      rw [he] at h
      simp only [okThenBind] at h
      cases hr : ucEntries t with
      | error e => rw [hr] at h; exact absurd h (by simp)
      | ok rb =>
        rw [hr] at h
        simp only [okThenBind, Except.ok.injEq] at h
        subst h
        simp only [List.length_append, ucEntriesLen,
          ucStreamEntry_ok_length s eb he, ih rb hr]

/-- Helper: one successful CB entry of `build_switch_config` is 16 bytes. -/
theorem switchCbEntry_ok_length (s : CorrectStream) (i dst : Nat) (bs : List Nat)
    (h : switchCbEntry s i dst = .ok bs) : bs.length = 16 := by
  unfold switchCbEntry at h
  cases h1 : packLEH s.stream_id with
  | error e => rw [h1] at h; exact absurd h (by simp)
  | ok f1 =>
  rw [h1] at h
  simp only [okThenBind] at h
  cases h2 : packB s.src_port with
  | error e => rw [h2] at h; exact absurd h (by simp)
  | ok f2 =>
  rw [h2] at h
  simp only [okThenBind] at h
  cases h3 : packB dst with
  | error e => rw [h3] at h; exact absurd h (by simp)
  | ok f3 =>
  rw [h3] at h
  simp only [okThenBind] at h
  cases h4 : packLEH 0xF1C1 with
  | error e => rw [h4] at h; exact absurd h (by simp)
  | ok f4 =>
  rw [h4] at h
  simp only [okThenBind] at h
  cases h5 : packB (i + 1) with
  | error e => rw [h5] at h; exact absurd h (by simp)
  | ok f5 =>
  rw [h5] at h
  simp only [okThenBind] at h
  cases h6 : packB 0x01 with
  | error e => rw [h6] at h; exact absurd h (by simp)
  | ok f6 =>
  rw [h6] at h
  simp only [okThenBind, Except.ok.injEq] at h
  subst h
  have e1 := packLEH_ok _ _ h1
  have e2 := packB_ok _ _ h2
  have e3 := packB_ok _ _ h3
  have e4 := packLEH_ok _ _ h4
  have e5 := packB_ok _ _ h5
  have e6 := packB_ok _ _ h6
  subst e1 e2 e3 e4 e5 e6
  simp [le16]

/-- Helper: one successful DPI entry of `build_switch_config` is 32 bytes. -/
theorem switchDpiEntry_ok_length (s : CorrectStream) (bs : List Nat)
    (h : switchDpiEntry s = .ok bs) : bs.length = 32 := by
  unfold switchDpiEntry at h
  cases h1 : packLEH s.stream_id with
  | error e => rw [h1] at h; exact absurd h (by simp)
  | ok f1 =>
  rw [h1] at h
  simp only [okThenBind] at h
  cases h2 : packLEH s.vlan_id with
  | error e => rw [h2] at h; exact absurd h (by simp)
  | ok f2 =>
  rw [h2] at h
  simp only [okThenBind] at h
  cases h3 : packB s.priority with
  | error e => rw [h3] at h; exact absurd h (by simp)
  | ok f3 =>
  rw [h3] at h
  simp only [okThenBind] at h
  cases h4 : packB s.src_port with
  | error e => rw [h4] at h; exact absurd h (by simp)
  | ok f4 =>
  rw [h4] at h
  simp only [okThenBind] at h
  cases h5 : packB 0x01 with
  | error e => rw [h5] at h; exact absurd h (by simp)
  | ok f5 =>
  rw [h5] at h
  simp only [okThenBind, Except.ok.injEq] at h
  subst h
  have e1 := packLEH_ok _ _ h1
  have e2 := packLEH_ok _ _ h2
  have e3 := packB_ok _ _ h3
  have e4 := packB_ok _ _ h4
  have e5 := packB_ok _ _ h5
  subst e1 e2 e3 e4 e5
  simp [le16]

/-- Helper: the CB inner loop never changes the table length. -/
theorem switchCbInner_length (s : CorrectStream) :
    ∀ (dsts : List Nat) (i : Nat) (tb : List Nat) (off : Nat) tb2 off2,
      switchCbInner s i dsts tb off = .ok (tb2, off2) → tb2.length = tb.length := by
  intro dsts
  induction dsts with
  | nil =>
    intro i tb off tb2 off2 h
    simp only [switchCbInner, Except.ok.injEq, Prod.mk.injEq] at h
    rw [← h.1]
  | cons d t ih =>
    intro i tb off tb2 off2 h
    simp only [switchCbInner] at h
    by_cases hfit : off + 16 ≤ tb.length
    · rw [if_pos hfit] at h
      cases he : switchCbEntry s i d with
      | error e => rw [he] at h; exact absurd h (by simp)
      | ok eb =>
        rw [he] at h
        simp only [okThenBind] at h
        have hw : (writeAt tb off eb).length = tb.length :=
          writeAt_length tb off eb (by rw [switchCbEntry_ok_length s i d eb he]; omega)
        rw [ih (i + 1) (writeAt tb off eb) (off + 16) tb2 off2 h, hw]
    · rw [if_neg hfit] at h
      exact ih (i + 1) tb off tb2 off2 h

/-- Helper: the CB outer loop never changes the table length. -/
theorem switchCbLoop_length :
    ∀ (streams : List CorrectStream) (tb : List Nat) (off : Nat) r,
      switchCbLoop streams tb off = .ok r → r.1.length = tb.length := by
  intro streams
  induction streams with
  | nil =>
    intro tb off r h
    simp only [switchCbLoop, Except.ok.injEq] at h
    rw [← h]
  | cons s t ih =>
    intro tb off r h
    simp only [switchCbLoop] at h
    cases hinner : switchCbInner s 0 s.dst_ports tb off with
    | error e => rw [hinner] at h; exact absurd h (by simp)
    | ok r1 =>
      rw [hinner] at h
      simp only [okThenBind] at h
      rw [ih r1.1 r1.2 r h, switchCbInner_length s s.dst_ports 0 tb off r1.1 r1.2 ?_]
      rw [hinner]

/-- Helper: the DPI loop never changes the table length. -/
theorem switchDpiLoop_length :
    ∀ (streams : List CorrectStream) (i : Nat) (tb tb2 : List Nat),
      switchDpiLoop i streams tb = .ok tb2 → tb2.length = tb.length := by
  intro streams
  induction streams with
  | nil =>
    intro i tb tb2 h
    simp only [switchDpiLoop, Except.ok.injEq] at h
    rw [← h]
  | cons s t ih =>
    intro i tb tb2 h
    simp only [switchDpiLoop] at h
    by_cases hfit : i * 32 + 32 ≤ tb.length
    · rw [if_pos hfit] at h
      cases he : switchDpiEntry s with
      | error e => rw [he] at h; exact absurd h (by simp)
      | ok eb =>
        rw [he] at h
        simp only [okThenBind] at h
        have hw : (writeAt tb (i * 32) eb).length = tb.length :=
          writeAt_length tb (i * 32) eb
            (by rw [switchDpiEntry_ok_length s eb he]; omega)
        rw [ih (i + 1) (writeAt tb (i * 32) eb) tb2 h, hw]
    · rw [if_neg hfit] at h
      exact ih (i + 1) tb tb2 h

/-- Helper: the 11 per-port blocks of `build_switch_config` are 128 bytes
each, 1408 bytes in total. -/
theorem switchPortConfig_length (p : Nat) : (switchPortConfig p).length = 128 := by
  unfold switchPortConfig
  simp only [writeAt, List.length_append, List.length_take, List.length_drop,
    List.length_replicate, le32_length, le32, List.length_cons, List.length_nil]
  omega

theorem switchPortBlocks_length :
    ((List.range 11).map switchPortConfig).flatten.length = 1408 := by
  rw [show List.range 11 = [0, 1, 2, 3, 4, 5, 6, 7, 8, 9, 10] from rfl]
  simp [List.flatten, switchPortConfig_length]

/-- Helper: header and table block lengths of the correct-firmware builder. -/
theorem ucHeader_length : ucHeader.length = 64 := by
  unfold ucHeader
  simp only [writeAt, List.length_append, List.length_take, List.length_drop,
    List.length_replicate, le32, List.length_cons, List.length_nil]
  omega

theorem switchConfigHeader_length : switchConfigHeader.length = 56 := by
  unfold switchConfigHeader
  simp only [writeAt, List.length_append, List.length_take, List.length_drop,
    List.length_replicate, le32, List.length_cons, List.length_nil]
  omega

theorem switchGeneralParams_length : switchGeneralParams.length = 256 := by
  unfold switchGeneralParams
  simp only [writeAt, List.length_append, List.length_take, List.length_drop,
    List.length_replicate, le32, List.length_cons, List.length_nil]
  omega

/-- **C2**: for every stream collection within the reserved capacity, the
built image has exactly the declared size: the UC firmware image is
`320*1024` bytes whenever the encoded body (80 fixed bytes plus the stream
entries) fits below `320*1024 - 4`, and the switch configuration image is
`640*1024` bytes for every stream count whatsoever (its tables are
fixed-size buffers), including zero streams. -/
theorem c2_image_sizes :
    (∀ streams img, build_uc_firmware streams = .ok img →
      80 + ucEntriesLen streams ≤ 327676 → img.length = 327680) ∧
    (∀ streams img, build_switch_config streams = .ok img → img.length = 655360) := by
  have hm : IMAGE_VALID_MARKER.length = 8 := rfl
  constructor
  · intro streams img hok hcap
    unfold build_uc_firmware at hok
    cases hcnt : packLEI streams.length with
    | error e => rw [hcnt] at hok; exact absurd hok (by simp)
    | ok cnt =>
    rw [hcnt] at hok
    simp only [okThenBind] at hok
    cases hent : ucEntries streams with
    | error e => rw [hent] at hok; exact absurd hok (by simp)
    | ok entries =>
    rw [hent] at hok
    simp only [okThenBind, Except.ok.injEq] at hok
    subst hok
    have hcl : cnt = le32 streams.length := packLEI_ok _ _ hcnt
    subst hcl
    have hel : entries.length = ucEntriesLen streams := ucEntries_ok_length _ _ hent
    simp only [List.length_append, List.length_replicate, le32_length, hm,
      ucHeader_length, hel]
    omega
  · intro streams img hok
    unfold build_switch_config at hok
    cases hcb : switchCbLoop streams (List.replicate 2048 0) 0 with
    | error e => rw [hcb] at hok; exact Except.noConfusion hok
    | ok cb =>
    rw [hcb] at hok
    simp only [okThenBind] at hok
    cases hdpi : switchDpiLoop 0 streams (List.replicate 1024 0) with
    | error e => rw [hdpi] at hok; exact Except.noConfusion hok
    | ok dpi =>
    rw [hdpi] at hok
    simp only [okThenBind, Except.ok.injEq] at hok
    subst hok
    have hcbl : cb.1.length = 2048 := by
      rw [switchCbLoop_length streams _ 0 cb hcb, List.length_replicate]
    have hdpil : dpi.length = 1024 := by
      rw [switchDpiLoop_length streams 0 _ dpi hdpi, List.length_replicate]
    simp only [List.length_append, List.length_replicate, le32_length, hm,
      switchConfigHeader_length, switchGeneralParams_length,
      switchPortBlocks_length, hcbl, hdpil]

/-- **C2 witness**: with zero streams the UC firmware image is exactly
`320*1024` bytes and the switch configuration image exactly `640*1024`
bytes. -/
theorem c2_image_sizes_witness :
    (∃ img, build_uc_firmware [] = .ok img ∧ img.length = 327680) ∧
    (∃ img, build_switch_config [] = .ok img ∧ img.length = 655360) :=
  ⟨⟨_, rfl, c2_image_sizes.1 [] _ rfl (by decide)⟩,
    ⟨_, rfl, c2_image_sizes.2 [] _ rfl⟩⟩

/-- Helper: block lengths of the dual-firmware builder. -/
theorem dualGeneralParams_length : dualGeneralParams.length = 20 := by
  simp [dualGeneralParams, be32]

theorem dualMacConfig_length (p : Nat) : (dualMacConfig p).length = 16 := by
  simp [dualMacConfig, be32]

theorem dualHeader_length : dualHeader.length = 64 := by
  simp [dualHeader, be32]

theorem be32_length (v : Nat) : (be32 v).length = 4 := rfl

/-- Helper: one step of the per-port write loop of `build_switch_firmware`,
acting on a buffer that is a filled prefix followed by zeros. -/
theorem dualPortsLoop_step (p : Nat) (ps : List Nat) (A : List Nat) (m k : Nat)
    (hk : 0x1000 + p * 0x100 = A.length + k) (hroom : k + 16 <= m) :
    dualPortsLoop (p :: ps) (A ++ List.replicate m 0)
      = dualPortsLoop ps ((A ++ (List.replicate k 0 ++ dualMacConfig p))
          ++ List.replicate (m - k - 16) 0) := by
  simp only [dualPortsLoop]
  rw [writeAt_seg A m (0x1000 + p * 0x100) k (dualMacConfig p) hk
    (by rw [dualMacConfig_length]; omega)]
  rw [dualMacConfig_length]

/-- Helper: the 64 KiB device-config buffer of `build_switch_firmware`,
written out as the concatenation of its filled blocks and zero gaps. -/
theorem dualDeviceConfig_seg :
    dualDeviceConfig = (((((((((((dualGeneralParams ++ (List.replicate 4076 0 ++ dualMacConfig 0)) ++ (List.replicate 240 0 ++ dualMacConfig 1)) ++ (List.replicate 240 0 ++ dualMacConfig 2)) ++ (List.replicate 240 0 ++ dualMacConfig 3)) ++ (List.replicate 240 0 ++ dualMacConfig 4)) ++ (List.replicate 240 0 ++ dualMacConfig 5)) ++ (List.replicate 240 0 ++ dualMacConfig 6)) ++ (List.replicate 240 0 ++ dualMacConfig 7)) ++ (List.replicate 240 0 ++ dualMacConfig 8)) ++ (List.replicate 240 0 ++ dualMacConfig 9)) ++ (List.replicate 240 0 ++ dualMacConfig 10))
      ++ List.replicate 58864 0 := by
  unfold dualDeviceConfig
  rw [writeAt_replicate 65536 0 dualGeneralParams
    (by rw [dualGeneralParams_length]; omega)]
  show dualPortsLoop [0, 1, 2, 3, 4, 5, 6, 7, 8, 9, 10]
    (dualGeneralParams ++ List.replicate 65516 0) = (((((((((((dualGeneralParams ++ (List.replicate 4076 0 ++ dualMacConfig 0)) ++ (List.replicate 240 0 ++ dualMacConfig 1)) ++ (List.replicate 240 0 ++ dualMacConfig 2)) ++ (List.replicate 240 0 ++ dualMacConfig 3)) ++ (List.replicate 240 0 ++ dualMacConfig 4)) ++ (List.replicate 240 0 ++ dualMacConfig 5)) ++ (List.replicate 240 0 ++ dualMacConfig 6)) ++ (List.replicate 240 0 ++ dualMacConfig 7)) ++ (List.replicate 240 0 ++ dualMacConfig 8)) ++ (List.replicate 240 0 ++ dualMacConfig 9)) ++ (List.replicate 240 0 ++ dualMacConfig 10))
      ++ List.replicate 58864 0
  rw [dualPortsLoop_step 0 [1, 2, 3, 4, 5, 6, 7, 8, 9, 10]
    dualGeneralParams
    65516 4076
    (by simp only [List.length_append, List.length_replicate,
      dualGeneralParams_length, dualMacConfig_length] <;> omega)
    (by omega)]
  show dualPortsLoop [1, 2, 3, 4, 5, 6, 7, 8, 9, 10]
    ((dualGeneralParams ++ (List.replicate 4076 0 ++ dualMacConfig 0)) ++ List.replicate 61424 0) = (((((((((((dualGeneralParams ++ (List.replicate 4076 0 ++ dualMacConfig 0)) ++ (List.replicate 240 0 ++ dualMacConfig 1)) ++ (List.replicate 240 0 ++ dualMacConfig 2)) ++ (List.replicate 240 0 ++ dualMacConfig 3)) ++ (List.replicate 240 0 ++ dualMacConfig 4)) ++ (List.replicate 240 0 ++ dualMacConfig 5)) ++ (List.replicate 240 0 ++ dualMacConfig 6)) ++ (List.replicate 240 0 ++ dualMacConfig 7)) ++ (List.replicate 240 0 ++ dualMacConfig 8)) ++ (List.replicate 240 0 ++ dualMacConfig 9)) ++ (List.replicate 240 0 ++ dualMacConfig 10))
      ++ List.replicate 58864 0
  rw [dualPortsLoop_step 1 [2, 3, 4, 5, 6, 7, 8, 9, 10]
    (dualGeneralParams ++ (List.replicate 4076 0 ++ dualMacConfig 0))
    61424 240
    (by simp only [List.length_append, List.length_replicate,
      dualGeneralParams_length, dualMacConfig_length] <;> omega)
    (by omega)]
  show dualPortsLoop [2, 3, 4, 5, 6, 7, 8, 9, 10]
    (((dualGeneralParams ++ (List.replicate 4076 0 ++ dualMacConfig 0)) ++ (List.replicate 240 0 ++ dualMacConfig 1)) ++ List.replicate 61168 0) = (((((((((((dualGeneralParams ++ (List.replicate 4076 0 ++ dualMacConfig 0)) ++ (List.replicate 240 0 ++ dualMacConfig 1)) ++ (List.replicate 240 0 ++ dualMacConfig 2)) ++ (List.replicate 240 0 ++ dualMacConfig 3)) ++ (List.replicate 240 0 ++ dualMacConfig 4)) ++ (List.replicate 240 0 ++ dualMacConfig 5)) ++ (List.replicate 240 0 ++ dualMacConfig 6)) ++ (List.replicate 240 0 ++ dualMacConfig 7)) ++ (List.replicate 240 0 ++ dualMacConfig 8)) ++ (List.replicate 240 0 ++ dualMacConfig 9)) ++ (List.replicate 240 0 ++ dualMacConfig 10))
      ++ List.replicate 58864 0
  rw [dualPortsLoop_step 2 [3, 4, 5, 6, 7, 8, 9, 10]
    ((dualGeneralParams ++ (List.replicate 4076 0 ++ dualMacConfig 0)) ++ (List.replicate 240 0 ++ dualMacConfig 1))
    61168 240
    (by simp only [List.length_append, List.length_replicate,
      dualGeneralParams_length, dualMacConfig_length] <;> omega)
    (by omega)]
  show dualPortsLoop [3, 4, 5, 6, 7, 8, 9, 10]
    ((((dualGeneralParams ++ (List.replicate 4076 0 ++ dualMacConfig 0)) ++ (List.replicate 240 0 ++ dualMacConfig 1)) ++ (List.replicate 240 0 ++ dualMacConfig 2)) ++ List.replicate 60912 0) = (((((((((((dualGeneralParams ++ (List.replicate 4076 0 ++ dualMacConfig 0)) ++ (List.replicate 240 0 ++ dualMacConfig 1)) ++ (List.replicate 240 0 ++ dualMacConfig 2)) ++ (List.replicate 240 0 ++ dualMacConfig 3)) ++ (List.replicate 240 0 ++ dualMacConfig 4)) ++ (List.replicate 240 0 ++ dualMacConfig 5)) ++ (List.replicate 240 0 ++ dualMacConfig 6)) ++ (List.replicate 240 0 ++ dualMacConfig 7)) ++ (List.replicate 240 0 ++ dualMacConfig 8)) ++ (List.replicate 240 0 ++ dualMacConfig 9)) ++ (List.replicate 240 0 ++ dualMacConfig 10))
      ++ List.replicate 58864 0
  rw [dualPortsLoop_step 3 [4, 5, 6, 7, 8, 9, 10]
    (((dualGeneralParams ++ (List.replicate 4076 0 ++ dualMacConfig 0)) ++ (List.replicate 240 0 ++ dualMacConfig 1)) ++ (List.replicate 240 0 ++ dualMacConfig 2))
    60912 240
    (by simp only [List.length_append, List.length_replicate,
      dualGeneralParams_length, dualMacConfig_length] <;> omega)
    (by omega)]
  show dualPortsLoop [4, 5, 6, 7, 8, 9, 10]
    (((((dualGeneralParams ++ (List.replicate 4076 0 ++ dualMacConfig 0)) ++ (List.replicate 240 0 ++ dualMacConfig 1)) ++ (List.replicate 240 0 ++ dualMacConfig 2)) ++ (List.replicate 240 0 ++ dualMacConfig 3)) ++ List.replicate 60656 0) = (((((((((((dualGeneralParams ++ (List.replicate 4076 0 ++ dualMacConfig 0)) ++ (List.replicate 240 0 ++ dualMacConfig 1)) ++ (List.replicate 240 0 ++ dualMacConfig 2)) ++ (List.replicate 240 0 ++ dualMacConfig 3)) ++ (List.replicate 240 0 ++ dualMacConfig 4)) ++ (List.replicate 240 0 ++ dualMacConfig 5)) ++ (List.replicate 240 0 ++ dualMacConfig 6)) ++ (List.replicate 240 0 ++ dualMacConfig 7)) ++ (List.replicate 240 0 ++ dualMacConfig 8)) ++ (List.replicate 240 0 ++ dualMacConfig 9)) ++ (List.replicate 240 0 ++ dualMacConfig 10))
      ++ List.replicate 58864 0
  rw [dualPortsLoop_step 4 [5, 6, 7, 8, 9, 10]
    ((((dualGeneralParams ++ (List.replicate 4076 0 ++ dualMacConfig 0)) ++ (List.replicate 240 0 ++ dualMacConfig 1)) ++ (List.replicate 240 0 ++ dualMacConfig 2)) ++ (List.replicate 240 0 ++ dualMacConfig 3))
    60656 240
    (by simp only [List.length_append, List.length_replicate,
      dualGeneralParams_length, dualMacConfig_length] <;> omega)
    (by omega)]
  show dualPortsLoop [5, 6, 7, 8, 9, 10]
    ((((((dualGeneralParams ++ (List.replicate 4076 0 ++ dualMacConfig 0)) ++ (List.replicate 240 0 ++ dualMacConfig 1)) ++ (List.replicate 240 0 ++ dualMacConfig 2)) ++ (List.replicate 240 0 ++ dualMacConfig 3)) ++ (List.replicate 240 0 ++ dualMacConfig 4)) ++ List.replicate 60400 0) = (((((((((((dualGeneralParams ++ (List.replicate 4076 0 ++ dualMacConfig 0)) ++ (List.replicate 240 0 ++ dualMacConfig 1)) ++ (List.replicate 240 0 ++ dualMacConfig 2)) ++ (List.replicate 240 0 ++ dualMacConfig 3)) ++ (List.replicate 240 0 ++ dualMacConfig 4)) ++ (List.replicate 240 0 ++ dualMacConfig 5)) ++ (List.replicate 240 0 ++ dualMacConfig 6)) ++ (List.replicate 240 0 ++ dualMacConfig 7)) ++ (List.replicate 240 0 ++ dualMacConfig 8)) ++ (List.replicate 240 0 ++ dualMacConfig 9)) ++ (List.replicate 240 0 ++ dualMacConfig 10))
      ++ List.replicate 58864 0
  rw [dualPortsLoop_step 5 [6, 7, 8, 9, 10]
    (((((dualGeneralParams ++ (List.replicate 4076 0 ++ dualMacConfig 0)) ++ (List.replicate 240 0 ++ dualMacConfig 1)) ++ (List.replicate 240 0 ++ dualMacConfig 2)) ++ (List.replicate 240 0 ++ dualMacConfig 3)) ++ (List.replicate 240 0 ++ dualMacConfig 4))
    60400 240
    (by simp only [List.length_append, List.length_replicate,
      dualGeneralParams_length, dualMacConfig_length] <;> omega)
    (by omega)]
  show dualPortsLoop [6, 7, 8, 9, 10]
    (((((((dualGeneralParams ++ (List.replicate 4076 0 ++ dualMacConfig 0)) ++ (List.replicate 240 0 ++ dualMacConfig 1)) ++ (List.replicate 240 0 ++ dualMacConfig 2)) ++ (List.replicate 240 0 ++ dualMacConfig 3)) ++ (List.replicate 240 0 ++ dualMacConfig 4)) ++ (List.replicate 240 0 ++ dualMacConfig 5)) ++ List.replicate 60144 0) = (((((((((((dualGeneralParams ++ (List.replicate 4076 0 ++ dualMacConfig 0)) ++ (List.replicate 240 0 ++ dualMacConfig 1)) ++ (List.replicate 240 0 ++ dualMacConfig 2)) ++ (List.replicate 240 0 ++ dualMacConfig 3)) ++ (List.replicate 240 0 ++ dualMacConfig 4)) ++ (List.replicate 240 0 ++ dualMacConfig 5)) ++ (List.replicate 240 0 ++ dualMacConfig 6)) ++ (List.replicate 240 0 ++ dualMacConfig 7)) ++ (List.replicate 240 0 ++ dualMacConfig 8)) ++ (List.replicate 240 0 ++ dualMacConfig 9)) ++ (List.replicate 240 0 ++ dualMacConfig 10))
      ++ List.replicate 58864 0
  rw [dualPortsLoop_step 6 [7, 8, 9, 10]
    ((((((dualGeneralParams ++ (List.replicate 4076 0 ++ dualMacConfig 0)) ++ (List.replicate 240 0 ++ dualMacConfig 1)) ++ (List.replicate 240 0 ++ dualMacConfig 2)) ++ (List.replicate 240 0 ++ dualMacConfig 3)) ++ (List.replicate 240 0 ++ dualMacConfig 4)) ++ (List.replicate 240 0 ++ dualMacConfig 5))
    60144 240
    (by simp only [List.length_append, List.length_replicate,
      dualGeneralParams_length, dualMacConfig_length] <;> omega)
    (by omega)]
  show dualPortsLoop [7, 8, 9, 10]
    ((((((((dualGeneralParams ++ (List.replicate 4076 0 ++ dualMacConfig 0)) ++ (List.replicate 240 0 ++ dualMacConfig 1)) ++ (List.replicate 240 0 ++ dualMacConfig 2)) ++ (List.replicate 240 0 ++ dualMacConfig 3)) ++ (List.replicate 240 0 ++ dualMacConfig 4)) ++ (List.replicate 240 0 ++ dualMacConfig 5)) ++ (List.replicate 240 0 ++ dualMacConfig 6)) ++ List.replicate 59888 0) = (((((((((((dualGeneralParams ++ (List.replicate 4076 0 ++ dualMacConfig 0)) ++ (List.replicate 240 0 ++ dualMacConfig 1)) ++ (List.replicate 240 0 ++ dualMacConfig 2)) ++ (List.replicate 240 0 ++ dualMacConfig 3)) ++ (List.replicate 240 0 ++ dualMacConfig 4)) ++ (List.replicate 240 0 ++ dualMacConfig 5)) ++ (List.replicate 240 0 ++ dualMacConfig 6)) ++ (List.replicate 240 0 ++ dualMacConfig 7)) ++ (List.replicate 240 0 ++ dualMacConfig 8)) ++ (List.replicate 240 0 ++ dualMacConfig 9)) ++ (List.replicate 240 0 ++ dualMacConfig 10))
      ++ List.replicate 58864 0
  rw [dualPortsLoop_step 7 [8, 9, 10]
    (((((((dualGeneralParams ++ (List.replicate 4076 0 ++ dualMacConfig 0)) ++ (List.replicate 240 0 ++ dualMacConfig 1)) ++ (List.replicate 240 0 ++ dualMacConfig 2)) ++ (List.replicate 240 0 ++ dualMacConfig 3)) ++ (List.replicate 240 0 ++ dualMacConfig 4)) ++ (List.replicate 240 0 ++ dualMacConfig 5)) ++ (List.replicate 240 0 ++ dualMacConfig 6))
    59888 240
    (by simp only [List.length_append, List.length_replicate,
      dualGeneralParams_length, dualMacConfig_length] <;> omega)
    (by omega)]
  show dualPortsLoop [8, 9, 10]
    (((((((((dualGeneralParams ++ (List.replicate 4076 0 ++ dualMacConfig 0)) ++ (List.replicate 240 0 ++ dualMacConfig 1)) ++ (List.replicate 240 0 ++ dualMacConfig 2)) ++ (List.replicate 240 0 ++ dualMacConfig 3)) ++ (List.replicate 240 0 ++ dualMacConfig 4)) ++ (List.replicate 240 0 ++ dualMacConfig 5)) ++ (List.replicate 240 0 ++ dualMacConfig 6)) ++ (List.replicate 240 0 ++ dualMacConfig 7)) ++ List.replicate 59632 0) = (((((((((((dualGeneralParams ++ (List.replicate 4076 0 ++ dualMacConfig 0)) ++ (List.replicate 240 0 ++ dualMacConfig 1)) ++ (List.replicate 240 0 ++ dualMacConfig 2)) ++ (List.replicate 240 0 ++ dualMacConfig 3)) ++ (List.replicate 240 0 ++ dualMacConfig 4)) ++ (List.replicate 240 0 ++ dualMacConfig 5)) ++ (List.replicate 240 0 ++ dualMacConfig 6)) ++ (List.replicate 240 0 ++ dualMacConfig 7)) ++ (List.replicate 240 0 ++ dualMacConfig 8)) ++ (List.replicate 240 0 ++ dualMacConfig 9)) ++ (List.replicate 240 0 ++ dualMacConfig 10))
      ++ List.replicate 58864 0
  rw [dualPortsLoop_step 8 [9, 10]
    ((((((((dualGeneralParams ++ (List.replicate 4076 0 ++ dualMacConfig 0)) ++ (List.replicate 240 0 ++ dualMacConfig 1)) ++ (List.replicate 240 0 ++ dualMacConfig 2)) ++ (List.replicate 240 0 ++ dualMacConfig 3)) ++ (List.replicate 240 0 ++ dualMacConfig 4)) ++ (List.replicate 240 0 ++ dualMacConfig 5)) ++ (List.replicate 240 0 ++ dualMacConfig 6)) ++ (List.replicate 240 0 ++ dualMacConfig 7))
    59632 240
    (by simp only [List.length_append, List.length_replicate,
      dualGeneralParams_length, dualMacConfig_length] <;> omega)
    (by omega)]
  show dualPortsLoop [9, 10]
    ((((((((((dualGeneralParams ++ (List.replicate 4076 0 ++ dualMacConfig 0)) ++ (List.replicate 240 0 ++ dualMacConfig 1)) ++ (List.replicate 240 0 ++ dualMacConfig 2)) ++ (List.replicate 240 0 ++ dualMacConfig 3)) ++ (List.replicate 240 0 ++ dualMacConfig 4)) ++ (List.replicate 240 0 ++ dualMacConfig 5)) ++ (List.replicate 240 0 ++ dualMacConfig 6)) ++ (List.replicate 240 0 ++ dualMacConfig 7)) ++ (List.replicate 240 0 ++ dualMacConfig 8)) ++ List.replicate 59376 0) = (((((((((((dualGeneralParams ++ (List.replicate 4076 0 ++ dualMacConfig 0)) ++ (List.replicate 240 0 ++ dualMacConfig 1)) ++ (List.replicate 240 0 ++ dualMacConfig 2)) ++ (List.replicate 240 0 ++ dualMacConfig 3)) ++ (List.replicate 240 0 ++ dualMacConfig 4)) ++ (List.replicate 240 0 ++ dualMacConfig 5)) ++ (List.replicate 240 0 ++ dualMacConfig 6)) ++ (List.replicate 240 0 ++ dualMacConfig 7)) ++ (List.replicate 240 0 ++ dualMacConfig 8)) ++ (List.replicate 240 0 ++ dualMacConfig 9)) ++ (List.replicate 240 0 ++ dualMacConfig 10))
      ++ List.replicate 58864 0
  rw [dualPortsLoop_step 9 [10]
    (((((((((dualGeneralParams ++ (List.replicate 4076 0 ++ dualMacConfig 0)) ++ (List.replicate 240 0 ++ dualMacConfig 1)) ++ (List.replicate 240 0 ++ dualMacConfig 2)) ++ (List.replicate 240 0 ++ dualMacConfig 3)) ++ (List.replicate 240 0 ++ dualMacConfig 4)) ++ (List.replicate 240 0 ++ dualMacConfig 5)) ++ (List.replicate 240 0 ++ dualMacConfig 6)) ++ (List.replicate 240 0 ++ dualMacConfig 7)) ++ (List.replicate 240 0 ++ dualMacConfig 8))
    59376 240
    (by simp only [List.length_append, List.length_replicate,
      dualGeneralParams_length, dualMacConfig_length] <;> omega)
    (by omega)]
  show dualPortsLoop [10]
    (((((((((((dualGeneralParams ++ (List.replicate 4076 0 ++ dualMacConfig 0)) ++ (List.replicate 240 0 ++ dualMacConfig 1)) ++ (List.replicate 240 0 ++ dualMacConfig 2)) ++ (List.replicate 240 0 ++ dualMacConfig 3)) ++ (List.replicate 240 0 ++ dualMacConfig 4)) ++ (List.replicate 240 0 ++ dualMacConfig 5)) ++ (List.replicate 240 0 ++ dualMacConfig 6)) ++ (List.replicate 240 0 ++ dualMacConfig 7)) ++ (List.replicate 240 0 ++ dualMacConfig 8)) ++ (List.replicate 240 0 ++ dualMacConfig 9)) ++ List.replicate 59120 0) = (((((((((((dualGeneralParams ++ (List.replicate 4076 0 ++ dualMacConfig 0)) ++ (List.replicate 240 0 ++ dualMacConfig 1)) ++ (List.replicate 240 0 ++ dualMacConfig 2)) ++ (List.replicate 240 0 ++ dualMacConfig 3)) ++ (List.replicate 240 0 ++ dualMacConfig 4)) ++ (List.replicate 240 0 ++ dualMacConfig 5)) ++ (List.replicate 240 0 ++ dualMacConfig 6)) ++ (List.replicate 240 0 ++ dualMacConfig 7)) ++ (List.replicate 240 0 ++ dualMacConfig 8)) ++ (List.replicate 240 0 ++ dualMacConfig 9)) ++ (List.replicate 240 0 ++ dualMacConfig 10))
      ++ List.replicate 58864 0
  rw [dualPortsLoop_step 10 []
    ((((((((((dualGeneralParams ++ (List.replicate 4076 0 ++ dualMacConfig 0)) ++ (List.replicate 240 0 ++ dualMacConfig 1)) ++ (List.replicate 240 0 ++ dualMacConfig 2)) ++ (List.replicate 240 0 ++ dualMacConfig 3)) ++ (List.replicate 240 0 ++ dualMacConfig 4)) ++ (List.replicate 240 0 ++ dualMacConfig 5)) ++ (List.replicate 240 0 ++ dualMacConfig 6)) ++ (List.replicate 240 0 ++ dualMacConfig 7)) ++ (List.replicate 240 0 ++ dualMacConfig 8)) ++ (List.replicate 240 0 ++ dualMacConfig 9))
    59120 240
    (by simp only [List.length_append, List.length_replicate,
      dualGeneralParams_length, dualMacConfig_length] <;> omega)
    (by omega)]
  show dualPortsLoop []
    ((((((((((((dualGeneralParams ++ (List.replicate 4076 0 ++ dualMacConfig 0)) ++ (List.replicate 240 0 ++ dualMacConfig 1)) ++ (List.replicate 240 0 ++ dualMacConfig 2)) ++ (List.replicate 240 0 ++ dualMacConfig 3)) ++ (List.replicate 240 0 ++ dualMacConfig 4)) ++ (List.replicate 240 0 ++ dualMacConfig 5)) ++ (List.replicate 240 0 ++ dualMacConfig 6)) ++ (List.replicate 240 0 ++ dualMacConfig 7)) ++ (List.replicate 240 0 ++ dualMacConfig 8)) ++ (List.replicate 240 0 ++ dualMacConfig 9)) ++ (List.replicate 240 0 ++ dualMacConfig 10)) ++ List.replicate 58864 0) = (((((((((((dualGeneralParams ++ (List.replicate 4076 0 ++ dualMacConfig 0)) ++ (List.replicate 240 0 ++ dualMacConfig 1)) ++ (List.replicate 240 0 ++ dualMacConfig 2)) ++ (List.replicate 240 0 ++ dualMacConfig 3)) ++ (List.replicate 240 0 ++ dualMacConfig 4)) ++ (List.replicate 240 0 ++ dualMacConfig 5)) ++ (List.replicate 240 0 ++ dualMacConfig 6)) ++ (List.replicate 240 0 ++ dualMacConfig 7)) ++ (List.replicate 240 0 ++ dualMacConfig 8)) ++ (List.replicate 240 0 ++ dualMacConfig 9)) ++ (List.replicate 240 0 ++ dualMacConfig 10))
      ++ List.replicate 58864 0
  simp only [dualPortsLoop]

/-- Helper: concrete byte sums of the dual-builder blocks. -/
theorem dualHeader_sum : dualHeader.sum = 548 := by decide

theorem dualGeneralParams_sum : dualGeneralParams.sum = 266 := by decide

theorem dualMac0_sum : (dualMacConfig 0).sum = 6 := by decide
theorem dualMac1_sum : (dualMacConfig 1).sum = 5 := by decide
theorem dualMac2_sum : (dualMacConfig 2).sum = 6 := by decide
theorem dualMac3_sum : (dualMacConfig 3).sum = 6 := by decide
theorem dualMac4_sum : (dualMacConfig 4).sum = 6 := by decide
theorem dualMac5_sum : (dualMacConfig 5).sum = 5 := by decide
theorem dualMac6_sum : (dualMacConfig 6).sum = 5 := by decide
theorem dualMac7_sum : (dualMacConfig 7).sum = 5 := by decide
theorem dualMac8_sum : (dualMacConfig 8).sum = 5 := by decide
theorem dualMac9_sum : (dualMacConfig 9).sum = 5 := by decide
theorem dualMac10_sum : (dualMacConfig 10).sum = 5 := by decide

/-- Helper: sum of a constant byte run. -/
theorem sum_replicate_nat (n x : Nat) : (List.replicate n x).sum = n * x := by
  induction n with
  | zero => simp
  | succ k ih =>
    rw [List.replicate_succ, List.sum_cons, ih, Nat.succ_mul]
    omega

/-- Helper: total byte sum of the dual-builder device-config buffer. -/
theorem dualDeviceConfig_sum : dualDeviceConfig.sum = 325 := by
  rw [dualDeviceConfig_seg]
  simp only [List.sum_append]
  simp only [sum_replicate_nat 4076 0, sum_replicate_nat 240 0,
    sum_replicate_nat 58864 0, dualGeneralParams_sum, dualMac0_sum,
    dualMac1_sum, dualMac2_sum, dualMac3_sum, dualMac4_sum, dualMac5_sum,
    dualMac6_sum, dualMac7_sum, dualMac8_sum, dualMac9_sum, dualMac10_sum]
  omega

/-- Helper: length of the dual-builder device-config buffer. -/
theorem dualDeviceConfig_length : dualDeviceConfig.length = 65536 := by
  rw [dualDeviceConfig_seg]
  simp only [List.length_append, List.length_replicate, dualGeneralParams_length,
    dualMacConfig_length]

/-- **C1**: the correct-firmware builders do append a little-endian CRC-32
trailer computed over all preceding bytes of the image (both for the UC
firmware image and for the switch configuration image); the dual-firmware
switch builder does not: its image ends in the big-endian additive checksum
`struct.pack('>I', sum(config) & 0xFFFFFFFF)` computed over the whole padded
image (the four `0xFF` pad bytes it then overwrites included), which for the
zero-stream build is the byte sequence `[6, 248, 195, 169]` — not a CRC-32
trailer. -/
theorem c1_crc_trailer_formats :
    (∀ streams img, build_uc_firmware streams = .ok img →
      ∃ p, img = p ++ le32 (crc32 p)) ∧
    (∀ streams img, build_switch_config streams = .ok img →
      ∃ p, img = p ++ le32 (crc32 p)) ∧
    (∃ img, build_switch_firmware [] = .ok img ∧ img.length = 655360 ∧
      img.drop 655356 = [6, 248, 195, 169] ∧
      [6, 248, 195, 169]
        = be32 (sumBytes (img.take 655356 ++ List.replicate 4 0xFF) &&& 0xFFFFFFFF)) := by
  refine ⟨?_, ?_, ?_⟩
  · intro streams img hok
    unfold build_uc_firmware at hok
    cases hcnt : packLEI streams.length with
    | error e => rw [hcnt] at hok; exact Except.noConfusion hok
    | ok cnt =>
    rw [hcnt] at hok
    simp only [okThenBind] at hok
    cases hent : ucEntries streams with
    | error e => rw [hent] at hok; exact Except.noConfusion hok
    | ok entries =>
    rw [hent] at hok
    simp only [okThenBind, Except.ok.injEq] at hok
    exact ⟨_, hok.symm⟩
  · intro streams img hok
    unfold build_switch_config at hok
    cases hcb : switchCbLoop streams (List.replicate 2048 0) 0 with
    | error e => rw [hcb] at hok; exact Except.noConfusion hok
    | ok cb =>
    rw [hcb] at hok
    simp only [okThenBind] at hok
    cases hdpi : switchDpiLoop 0 streams (List.replicate 1024 0) with
    | error e => rw [hdpi] at hok; exact Except.noConfusion hok
    | ok dpi =>
    rw [hdpi] at hok
    simp only [okThenBind, Except.ok.injEq] at hok
    exact ⟨_, hok.symm⟩
  · have hCl : (dualHeader ++ dualDeviceConfig ++ List.replicate 131072 0).length
        = 196672 := by
      simp only [List.length_append, List.length_replicate, dualHeader_length,
        dualDeviceConfig_length]
    have hpad : 655360 - (dualHeader ++ dualDeviceConfig
        ++ List.replicate 131072 0).length = 458688 := by
      rw [hCl]
    have hbuild : build_switch_firmware [] = .ok
        (((dualHeader ++ dualDeviceConfig ++ List.replicate 131072 0)
            ++ List.replicate 458688 255).take
          (((dualHeader ++ dualDeviceConfig ++ List.replicate 131072 0)
            ++ List.replicate 458688 255).length - 4)
          ++ be32 (sumBytes ((dualHeader ++ dualDeviceConfig
            ++ List.replicate 131072 0) ++ List.replicate 458688 255)
              &&& 0xFFFFFFFF)) := by
      unfold build_switch_firmware
      rw [show dualL2Lookup ([] : List DualStream)
        = Except.ok (List.replicate 131072 0) from rfl]
      simp only [okThenBind]
      rw [hpad]
    have hPlen : ((dualHeader ++ dualDeviceConfig ++ List.replicate 131072 0)
        ++ List.replicate 458688 255).length = 655360 := by
      rw [List.length_append, hCl, List.length_replicate]
    have hsum : sumBytes ((dualHeader ++ dualDeviceConfig
        ++ List.replicate 131072 0) ++ List.replicate 458688 255) = 116966313 := by
      rw [sumBytes_eq_sum]
      simp only [List.sum_append]
      simp only [sum_replicate_nat 131072 0, sum_replicate_nat 458688 255,
        dualHeader_sum, dualDeviceConfig_sum]
    have hS : sumBytes ((dualHeader ++ dualDeviceConfig
        ++ List.replicate 131072 0) ++ List.replicate 458688 255)
        &&& 0xFFFFFFFF = 116966313 := by
      rw [hsum]
      decide
    have htk : (((dualHeader ++ dualDeviceConfig ++ List.replicate 131072 0)
        ++ List.replicate 458688 255).take
          (((dualHeader ++ dualDeviceConfig ++ List.replicate 131072 0)
            ++ List.replicate 458688 255).length - 4)).length = 655356 := by
      simp only [List.length_take, hPlen]
      omega
    refine ⟨_, hbuild, ?_, ?_, ?_⟩
    · rw [List.length_append, htk, be32_length]
    · rw [List.drop_left' htk, hS]
      decide
    · have h1 : (((dualHeader ++ dualDeviceConfig ++ List.replicate 131072 0)
          ++ List.replicate 458688 255).take
            (((dualHeader ++ dualDeviceConfig ++ List.replicate 131072 0)
              ++ List.replicate 458688 255).length - 4)
          ++ be32 (sumBytes ((dualHeader ++ dualDeviceConfig
            ++ List.replicate 131072 0) ++ List.replicate 458688 255)
              &&& 0xFFFFFFFF)).take 655356
          = ((dualHeader ++ dualDeviceConfig ++ List.replicate 131072 0)
            ++ List.replicate 458688 255).take
              (((dualHeader ++ dualDeviceConfig ++ List.replicate 131072 0)
                ++ List.replicate 458688 255).length - 4) :=
        List.take_left' htk
      have h2 : ((dualHeader ++ dualDeviceConfig ++ List.replicate 131072 0)
          ++ List.replicate 458688 255).length - 4 = 655356 := by
        rw [hPlen]
      have h3 : ((dualHeader ++ dualDeviceConfig ++ List.replicate 131072 0)
          ++ List.replicate 458688 255).take 655356
          = (dualHeader ++ dualDeviceConfig ++ List.replicate 131072 0)
            ++ List.replicate 458684 255 := by
        rw [List.take_append_eq_append_take,
          List.take_of_length_le (by rw [hCl]; omega), hCl, List.take_replicate]
        norm_num
      rw [h1, h2, h3, List.append_assoc, ← List.replicate_add,
        show (458684 + 4 : Nat) = 458688 from rfl, hS]
      decide

/-- Witness for C1: both correct-firmware builders succeed on the empty
stream list and their images end in a little-endian CRC-32 trailer. -/
theorem c1_crc_trailer_formats_witness :
    (∃ img, build_uc_firmware [] = .ok img ∧ ∃ p, img = p ++ le32 (crc32 p)) ∧
    (∃ img, build_switch_config [] = .ok img ∧ ∃ p, img = p ++ le32 (crc32 p)) := by
  constructor
  · exact ⟨_, rfl, c1_crc_trailer_formats.1 [] _ rfl⟩
  · exact ⟨_, rfl, c1_crc_trailer_formats.2.1 [] _ rfl⟩
